import Mathlib

/-!
# Frame lifecycle and draw dispatch of the lve renderer

A shallow embedding of `lve_renderer.cpp`, `render_system.cpp` and
`point_light_system.cpp`.

* Every call into a collaborator that is outside the translated sources (the
  swapchain, the window, the Vulkan driver) is an oracle: its return value is a
  field of an environment record handed to the operation, and the call itself
  is appended to the renderer's `trace`.
* `assert` is modelled as in a debug build: a failed assertion ends the
  operation with an `assertFailed` outcome.
* `throw std::runtime_error` ends the operation with `Outcome.runtimeError`;
  the state carried by the outcome is the state at the point of the throw.
* The wait loop of `recreateSwapChain` runs over a finite record of extent
  readings; when the record ends with the extent still degenerate the
  operation is `blocked`.
* Compile-time constants declared in absent headers (`MAX_FRAMES_IN_FLIGHT`,
  `MAX_POINT_LIGHTS`) and library functions (`glm::rotate`,
  `TransformComponent::mat4`, `normalMatrix`) are parameters.
* Containers are lists in iteration order: `std::vector` and the
  `unordered_map` of game objects as they are, `std::map` as its entries
  sorted by key.  Recorded commands are appended to a list.
* `float` in `PointLightSystem::render`, where rounding decides which lights
  share a key of the distance map, is any linearly ordered type with its own
  addition, subtraction and multiplication (no law assumed); `Binary32` is the
  instance with IEEE 754 single precision rounding.  Elsewhere `float` is an
  exact ordered ring or field.  Infinities and NaN are outside the model.
-/

namespace lve

/-! ## Vulkan vocabulary -/

/-- The C enum `VkResult`, by its integer value. -/
abbrev VkResult := Int

/-- Value of `VK_SUCCESS`. -/
def VK_SUCCESS : VkResult := 0

/-- Value of `VK_SUBOPTIMAL_KHR`. -/
def VK_SUBOPTIMAL_KHR : VkResult := 1000001003

/-- Value of `VK_ERROR_OUT_OF_DATE_KHR`. -/
def VK_ERROR_OUT_OF_DATE_KHR : VkResult := -1000001004

/-- Value of `VK_ERROR_DEVICE_LOST`, one of the results that is neither success nor staleness. -/
def VK_ERROR_DEVICE_LOST : VkResult := -4

/-- Width and height of a drawable area (`uint32_t` fields). -/
structure VkExtent2D where
  width : Nat
  height : Nat
deriving DecidableEq, Repr

/-- The C enum `VkFormat`, by its value. -/
abbrev VkFormat := Nat

/-- An opaque command buffer handle. -/
abbrev VkCommandBuffer := Nat

/-- The null handle that `std::vector::resize` value-initialises new entries with. -/
def VK_NULL_HANDLE : VkCommandBuffer := 0

/-- What the renderer observes of an `LveSwapChain`: the extent it was built for and its formats. -/
structure LveSwapChain where
  extent : VkExtent2D
  imageFormat : VkFormat
  depthFormat : VkFormat
deriving DecidableEq, Repr

/-- Calls into collaborators, in the order the renderer makes them. -/
inductive Event where
  | getExtent
  | glfwWaitEvents
  | vkDeviceWaitIdle
  | createSwapChain (extent : VkExtent2D) (reusesOld : Bool)
  | vkAllocateCommandBuffers (count : Nat)
  | acquireNextImage
  | vkBeginCommandBuffer (commandBuffer : VkCommandBuffer)
  | vkEndCommandBuffer (commandBuffer : VkCommandBuffer)
  | submitCommandBuffers (commandBuffer : VkCommandBuffer) (imageIndex : Nat)
  | resetWindowResizedFlag
  | vkCmdBeginRenderPass (commandBuffer : VkCommandBuffer) (imageIndex : Nat)
      (renderArea : VkExtent2D)
  | vkCmdSetViewport (commandBuffer : VkCommandBuffer) (width height : Nat)
  | vkCmdSetScissor (commandBuffer : VkCommandBuffer) (extent : VkExtent2D)
  | vkCmdEndRenderPass (commandBuffer : VkCommandBuffer)
deriving DecidableEq, Repr

/-- True for the event of building a swapchain. -/
def Event.isCreateSwapChain : Event → Bool
  | .createSwapChain _ _ => true
  | _ => false

/-- Number of swapchains built so far in a trace. -/
def recreations (trace : List Event) : Nat :=
  (trace.filter Event.isCreateSwapChain).length

/-! ## Renderer state -/

/-- The data members of `LveRenderer` (the window and device references are oracles). -/
structure LveRenderer where
  lveSwapChain : Option LveSwapChain
  commandBuffers : List VkCommandBuffer
  currentImageIndex : Nat
  currentFrameIndex : Nat
  isFrameStarted : Bool
  trace : List Event
deriving DecidableEq, Repr

/-- How a member function ends. -/
inductive Outcome (α : Type) where
  | ok (value : α) (s : LveRenderer)
  | assertFailed (msg : String) (s : LveRenderer)
  | runtimeError (msg : String) (s : LveRenderer)
  | blocked (s : LveRenderer)
  | undefinedBehaviour (s : LveRenderer)
deriving DecidableEq, Repr

/-- Sequencing: anything but a normal return propagates unchanged. -/
def Outcome.bind {α β : Type} : Outcome α → (α → LveRenderer → Outcome β) → Outcome β
  | .ok a s, f => f a s
  | .assertFailed m s, _ => .assertFailed m s
  | .runtimeError m s, _ => .runtimeError m s
  | .blocked s, _ => .blocked s
  | .undefinedBehaviour s, _ => .undefinedBehaviour s

/-! ## `LveRenderer::recreateSwapChain` -/

/-- Oracle of one `recreateSwapChain` call: the successive values of
`lveWindow.getExtent()` (the one read before the loop, then one per loop
iteration) and the formats of the swapchain that gets built. -/
structure RecreateEnv where
  extent : VkExtent2D
  later : List VkExtent2D
  imageFormat : VkFormat
  depthFormat : VkFormat
deriving DecidableEq, Repr

/-- The loop `while (extent.width == 0 || extent.height == 0)`: each iteration
reads the extent again and waits for events.  When the recorded readings end
while the extent is still degenerate the loop never exits (`none`). -/
def waitForExtent : VkExtent2D → List VkExtent2D → List Event → Option VkExtent2D × List Event
  | extent, [], trace =>
    if extent.width = 0 ∨ extent.height = 0 then (none, trace) else (some extent, trace)
  | extent, next :: rest, trace =>
    if extent.width = 0 ∨ extent.height = 0 then
      waitForExtent next rest (trace ++ [Event.getExtent, Event.glfwWaitEvents])
    else (some extent, trace)

/-- Modelled from the spec: `LveSwapChain::compareSwapFormats`, declared in the
absent header `lve_swap_chain.hpp`; it verifies that "the new swapchain's
image/depth formats match the old one's". -/
def compareSwapFormats (old new : LveSwapChain) : Bool :=
  decide (new.depthFormat = old.depthFormat) && decide (new.imageFormat = old.imageFormat)

/-- Translation of `LveRenderer::recreateSwapChain` (lve_renderer.cpp 17-38). -/
def recreateSwapChain (env : RecreateEnv) (s : LveRenderer) : Outcome Unit :=
  match waitForExtent env.extent env.later (s.trace ++ [Event.getExtent]) with
  | (none, trace) => .blocked { s with trace := trace }
  | (some extent, trace) =>
    let built : LveSwapChain :=
      { extent := extent, imageFormat := env.imageFormat, depthFormat := env.depthFormat }
    match s.lveSwapChain with
    | none =>
      .ok () { s with
        lveSwapChain := some built
        trace := trace ++ [Event.vkDeviceWaitIdle, Event.createSwapChain extent false] }
    | some oldSwapChain =>
      let s1 : LveRenderer := { s with
        lveSwapChain := some built
        trace := trace ++ [Event.vkDeviceWaitIdle, Event.createSwapChain extent true] }
      if compareSwapFormats oldSwapChain built then .ok () s1
      else .runtimeError "Swap chain image(or depth) format has changed" s1

/-! ## Construction -/

/-- Oracle of the constructor: the first swapchain build and the command buffer allocation. -/
structure ConstructEnv where
  recreate : RecreateEnv
  allocResult : VkResult
  allocated : Nat → VkCommandBuffer

/-- Translation of `LveRenderer::createCommandBuffers` (lve_renderer.cpp 40-52);
the argument `maxFramesInFlight` is `LveSwapChain::MAX_FRAMES_IN_FLIGHT`. -/
def createCommandBuffers (maxFramesInFlight : Nat) (env : ConstructEnv) (s : LveRenderer) :
    Outcome Unit :=
  let s1 : LveRenderer := { s with
    commandBuffers := s.commandBuffers.take maxFramesInFlight ++
      List.replicate (maxFramesInFlight - s.commandBuffers.length) VK_NULL_HANDLE
    trace := s.trace ++ [Event.vkAllocateCommandBuffers maxFramesInFlight] }
  if env.allocResult ≠ VK_SUCCESS then .runtimeError "failed to allocate command buffers!" s1
  else .ok () { s1 with commandBuffers := (List.range maxFramesInFlight).map env.allocated }

/-- The members before the constructor body runs: no swapchain, no command
buffers, and (per the spec's "slot index 0, no frame open"; the initialisers are
in the absent header) frame index 0 and no frame started. -/
def LveRenderer.initial : LveRenderer :=
  { lveSwapChain := none, commandBuffers := [], currentImageIndex := 0,
    currentFrameIndex := 0, isFrameStarted := false, trace := [] }

/-- Translation of the constructor (lve_renderer.cpp 9-12). -/
def LveRenderer.construct (maxFramesInFlight : Nat) (env : ConstructEnv) : Outcome Unit :=
  (recreateSwapChain env.recreate LveRenderer.initial).bind fun _ s =>
    createCommandBuffers maxFramesInFlight env s

/-! ## Frame begin and end -/

/-- Modelled from the spec: `LveRenderer::getCurrentCommandBuffer`, defined in
the absent header `lve_renderer.hpp`.  Each in-flight frame slot owns one
command buffer ("N of them, matching frame slots"), and this is the command
buffer of the current slot; `none` is an index outside the vector. -/
def getCurrentCommandBuffer (s : LveRenderer) : Option VkCommandBuffer :=
  s.commandBuffers[s.currentFrameIndex]?

/-- Oracle of one `beginFrame` call. -/
structure BeginFrameEnv where
  acquireResult : VkResult
  imageIndex : Nat
  beginResult : VkResult
  recreate : RecreateEnv
deriving DecidableEq, Repr

/-- Translation of `LveRenderer::beginFrame` (lve_renderer.cpp 59-87).
The returned `nullptr` is `none`. -/
def beginFrame (env : BeginFrameEnv) (s : LveRenderer) : Outcome (Option VkCommandBuffer) :=
  if s.isFrameStarted then .assertFailed "Cannot call beginFrame while in progress" s
  else
    let s1 : LveRenderer := { s with
      currentImageIndex := env.imageIndex
      trace := s.trace ++ [Event.acquireNextImage] }
    if env.acquireResult = VK_ERROR_OUT_OF_DATE_KHR then
      (recreateSwapChain env.recreate s1).bind fun _ s2 => .ok none s2
    else if env.acquireResult ≠ VK_SUCCESS ∧ env.acquireResult ≠ VK_SUBOPTIMAL_KHR then
      .runtimeError "failed to acquire swap chain image!" s1
    else
      let s2 : LveRenderer := { s1 with isFrameStarted := true }
      match getCurrentCommandBuffer s2 with
      | none => .undefinedBehaviour s2
      | some commandBuffer =>
        let s3 : LveRenderer := { s2 with
          trace := s2.trace ++ [Event.vkBeginCommandBuffer commandBuffer] }
        if env.beginResult ≠ VK_SUCCESS then
          .runtimeError "failed to begin recording command buffer!" s3
        else .ok (some commandBuffer) s3

/-- Oracle of one `endFrame` call. -/
structure EndFrameEnv where
  endResult : VkResult
  submitResult : VkResult
  wasWindowResized : Bool
  recreate : RecreateEnv
deriving DecidableEq, Repr

/-- The branch of `endFrame` on the submit/present result (lve_renderer.cpp 99-104). -/
def endFrameResync (env : EndFrameEnv) (s : LveRenderer) : Outcome Unit :=
  if env.submitResult = VK_ERROR_OUT_OF_DATE_KHR ∨ env.submitResult = VK_SUBOPTIMAL_KHR ∨
      env.wasWindowResized = true then
    recreateSwapChain env.recreate { s with trace := s.trace ++ [Event.resetWindowResizedFlag] }
  else if env.submitResult ≠ VK_SUCCESS ∧ env.submitResult ≠ VK_SUBOPTIMAL_KHR then
    .runtimeError "failed to acquire swap chain image!" s
  else .ok () s

/-- Translation of `LveRenderer::endFrame` (lve_renderer.cpp 89-109). -/
def endFrame (maxFramesInFlight : Nat) (env : EndFrameEnv) (s : LveRenderer) : Outcome Unit :=
  if ¬ s.isFrameStarted then
    .assertFailed "Cannot call endFrame while frame is not in progress" s
  else
    match getCurrentCommandBuffer s with
    | none => .undefinedBehaviour s
    | some commandBuffer =>
      let s1 : LveRenderer := { s with
        trace := s.trace ++ [Event.vkEndCommandBuffer commandBuffer] }
      if env.endResult ≠ VK_SUCCESS then .runtimeError "failed to record command buffer!" s1
      else
        let s2 : LveRenderer := { s1 with
          trace := s1.trace ++ [Event.submitCommandBuffers commandBuffer s1.currentImageIndex] }
        (endFrameResync env s2).bind fun _ s3 =>
          .ok () { s3 with
            isFrameStarted := false
            currentFrameIndex := (s3.currentFrameIndex + 1) % maxFramesInFlight }

/-! ## Render pass begin and end -/

/-- Translation of `LveRenderer::beginSwapChainRenderPass` (lve_renderer.cpp
111-143).  The argument `swapChainExtent` is what
`lveSwapChain->getSwapChainExtent()` returns; a null `commandBuffer` is `none`.
The framebuffer is the one of `currentImageIndex`; the clear values are
constants and are left out of the recorded event. -/
def beginSwapChainRenderPass (swapChainExtent : VkExtent2D)
    (commandBuffer : Option VkCommandBuffer) (s : LveRenderer) : Outcome Unit :=
  if ¬ s.isFrameStarted then
    .assertFailed "Cannot call beginSwapChainRenderPass while frame is not in progress" s
  else
    match getCurrentCommandBuffer s with
    | none => .undefinedBehaviour s
    | some current =>
      if commandBuffer ≠ some current then
        .assertFailed "Cannot begin render pass on command buffer from a different frame" s
      else
        .ok () { s with
          trace := s.trace ++
            [Event.vkCmdBeginRenderPass current s.currentImageIndex swapChainExtent] ++
            [Event.vkCmdSetViewport current swapChainExtent.width swapChainExtent.height] ++
            [Event.vkCmdSetScissor current swapChainExtent] }

/-- Translation of `LveRenderer::endSwapChainRenderPass` (lve_renderer.cpp 145-149). -/
def endSwapChainRenderPass (commandBuffer : Option VkCommandBuffer) (s : LveRenderer) :
    Outcome Unit :=
  if ¬ s.isFrameStarted then
    .assertFailed "Cannot call endSwapChainRenderPass while frame is not in progress" s
  else
    match getCurrentCommandBuffer s with
    | none => .undefinedBehaviour s
    | some current =>
      if commandBuffer ≠ some current then
        .assertFailed "Cannot end render pass on command buffer from a different frame" s
      else .ok () { s with trace := s.trace ++ [Event.vkCmdEndRenderPass current] }

/-! ## Sequences of calls made by the frame loop -/

/-- One call of the frame loop on the renderer, with its oracle. -/
inductive Call where
  | beginFrame (env : BeginFrameEnv)
  | endFrame (env : EndFrameEnv)
deriving DecidableEq, Repr

/-- Runs the calls in order and collects what each `beginFrame` returned. -/
def runCalls (maxFramesInFlight : Nat) :
    List Call → LveRenderer → Outcome (List (Option VkCommandBuffer))
  | [], s => .ok [] s
  | Call.beginFrame env :: rest, s =>
    (beginFrame env s).bind fun r s1 =>
      (runCalls maxFramesInFlight rest s1).bind fun rs s2 => .ok (r :: rs) s2
  | Call.endFrame env :: rest, s =>
    (endFrame maxFramesInFlight env s).bind fun _ s1 => runCalls maxFramesInFlight rest s1

/-- The command buffers returned by the successful `beginFrame` calls, in order. -/
def successes (results : List (Option VkCommandBuffer)) : List VkCommandBuffer :=
  results.filterMap id

/-! ## Scene data (glm vectors, game objects, frame info)

Scalars (`float` in the source) are taken from an arbitrary linearly ordered
ring `R` (a field where the literal `0.5` is needed): the dispatchers only add,
subtract, multiply and compare them.
-/

section Scene

variable {R : Type} [LinearOrderedRing R]

/-- The glm type `vec3`. -/
structure Vec3 (R : Type) where
  x : R
  y : R
  z : R
deriving DecidableEq, Repr

/-- The glm type `vec4`. -/
structure Vec4 (R : Type) where
  x : R
  y : R
  z : R
  w : R
deriving DecidableEq, Repr

/-- The glm type `mat4`, by its four columns. -/
structure Mat4 (R : Type) where
  c0 : Vec4 R
  c1 : Vec4 R
  c2 : Vec4 R
  c3 : Vec4 R
deriving DecidableEq, Repr

/-- Componentwise `vec3 - vec3`. -/
def Vec3.sub {R : Type} [Sub R] (a b : Vec3 R) : Vec3 R :=
  { x := a.x - b.x, y := a.y - b.y, z := a.z - b.z }

/-- The function `glm::dot` on `vec3`: the sum of the componentwise products. -/
def dot {R : Type} [Add R] [Mul R] (a b : Vec3 R) : R :=
  a.x * b.x + a.y * b.y + a.z * b.z

/-- The constructor `glm::vec4(vec3, w)`. -/
def vec4 (v : Vec3 R) (w : R) : Vec4 R :=
  { x := v.x, y := v.y, z := v.z, w := w }

/-- The constructor `glm::vec3(vec4)`, dropping `w`. -/
def vec3 (v : Vec4 R) : Vec3 R :=
  { x := v.x, y := v.y, z := v.z }

/-- Scaling of a `vec4`. -/
def Vec4.smul (v : Vec4 R) (k : R) : Vec4 R :=
  { x := v.x * k, y := v.y * k, z := v.z * k, w := v.w * k }

/-- Componentwise `vec4 + vec4`. -/
def Vec4.add (a b : Vec4 R) : Vec4 R :=
  { x := a.x + b.x, y := a.y + b.y, z := a.z + b.z, w := a.w + b.w }

/-- The product `mat4 * vec4` as glm computes it: the columns scaled by the
components of the vector, summed pairwise. -/
def Mat4.mulVec (m : Mat4 R) (v : Vec4 R) : Vec4 R :=
  ((m.c0.smul v.x).add (m.c1.smul v.y)).add ((m.c2.smul v.z).add (m.c3.smul v.w))

/-- The identity matrix `glm::mat4(1.f)`. -/
def Mat4.identity : Mat4 R :=
  { c0 := { x := 1, y := 0, z := 0, w := 0 }, c1 := { x := 0, y := 1, z := 0, w := 0 },
    c2 := { x := 0, y := 0, z := 1, w := 0 }, c3 := { x := 0, y := 0, z := 0, w := 1 } }

/-- The type `LveGameObject::id_t`. -/
abbrev id_t := Nat

/-- A handle on a shared `LveModel`. -/
abbrev LveModel := Nat

/-- A handle on a descriptor set. -/
abbrev VkDescriptorSet := Nat

/-- Modelled from the spec: `TransformComponent`, declared in the absent header
`lve_game_object.hpp`: "a transform (translation, scale, rotation)". -/
structure TransformComponent (R : Type) where
  translation : Vec3 R
  scale : Vec3 R
  rotation : Vec3 R
deriving DecidableEq, Repr

/-- Modelled from the spec: `PointLightComponent`, declared in the absent header
`lve_game_object.hpp`: the "point-light attribute (intensity ...)". -/
structure PointLightComponent (R : Type) where
  lightIntensity : R
deriving DecidableEq, Repr

/-- Modelled from the spec: `LveGameObject`, declared in the absent header
`lve_game_object.hpp`: "identity (unique id), an optional mesh reference, a
transform, a color, and an optional point-light attribute".  A null `model` or
`pointLight` pointer is `none`. -/
structure LveGameObject (R : Type) where
  id : id_t
  color : Vec3 R
  transform : TransformComponent R
  model : Option LveModel
  pointLight : Option (PointLightComponent R)
deriving DecidableEq, Repr

/-- The object set `LveGameObject::Map`, as its (key, object) entries in iteration order. -/
abbrev GameObjectMap (R : Type) := List (id_t × LveGameObject R)

/-- The member `at(id)` of the object map; `none` stands for `std::out_of_range`. -/
def GameObjectMap.at (gameObjects : GameObjectMap R) (id : id_t) : Option (LveGameObject R) :=
  (gameObjects.find? fun entry => entry.1 == id).map Prod.snd

/-- The fields of `FrameInfo` in the order `LveApp::run` initialises them
(lve_app.cpp 87-94); the camera is represented by what `getPosition()` returns. -/
structure FrameInfo (R : Type) where
  frameIndex : Nat
  frameTime : R
  commandBuffer : VkCommandBuffer
  cameraPosition : Vec3 R
  globalDescriptorSet : VkDescriptorSet
  gameObjects : GameObjectMap R

/-- The struct `SimplePushConstantData` (render_system.cpp 14-17). -/
structure SimplePushConstantData (R : Type) where
  modelMatrix : Mat4 R
  normalMatrix : Mat4 R
deriving DecidableEq, Repr

/-- The struct `PointLightPushConstants` (point_light_system.cpp 15-19). -/
structure PointLightPushConstants (R : Type) where
  position : Vec4 R
  color : Vec4 R
  radius : R
deriving DecidableEq, Repr

/-- Commands recorded into the frame's command buffer by the two dispatchers. -/
inductive Command (R : Type) where
  | bindPipeline
  | bindDescriptorSets (descriptorSet : VkDescriptorSet)
  | pushSimple (push : SimplePushConstantData R)
  | pushPointLight (push : PointLightPushConstants R)
  | modelBind (model : LveModel)
  | modelDraw (model : LveModel)
  | draw (vertexCount instanceCount firstVertex firstInstance : Nat)
deriving DecidableEq, Repr

/-! ## `RenderSystem::renderGameObjects` -/

/-- The loop of `renderGameObjects` (render_system.cpp 74-84) over the entries
that remain, appending to what is already recorded.  The arguments `mat4` and
`normalMatrix` are the member functions of `TransformComponent` of those names. -/
def renderObjectsLoop (mat4 normalMatrix : TransformComponent R → Mat4 R) :
    GameObjectMap R → List (Command R) → List (Command R)
  | [], recorded => recorded
  | (_, obj) :: rest, recorded =>
    match obj.model with
    | none => renderObjectsLoop mat4 normalMatrix rest recorded
    | some model =>
      let push : SimplePushConstantData R :=
        { modelMatrix := mat4 obj.transform, normalMatrix := normalMatrix obj.transform }
      renderObjectsLoop mat4 normalMatrix rest
        (recorded ++ [Command.pushSimple push] ++ [Command.modelBind model] ++
          [Command.modelDraw model])

/-- Translation of `RenderSystem::renderGameObjects` (render_system.cpp 60-85). -/
def RenderSystem.renderGameObjects (mat4 normalMatrix : TransformComponent R → Mat4 R)
    (frameInfo : FrameInfo R) (recorded : List (Command R)) : List (Command R) :=
  renderObjectsLoop mat4 normalMatrix frameInfo.gameObjects
    (recorded ++ [Command.bindPipeline] ++
      [Command.bindDescriptorSets frameInfo.globalDescriptorSet])

/-! ## `PointLightSystem::update` -/

/-- Modelled from the spec: one entry of the uniform block's light array,
declared in the absent header `lve_frame_info.hpp`: "(position, color+intensity)". -/
structure PointLight (R : Type) where
  position : Vec4 R
  color : Vec4 R
deriving DecidableEq, Repr

/-- Modelled from the spec: `GlobalUbo`, declared in the absent header
`lve_frame_info.hpp`: "projection matrix, view matrix, inverse-view matrix, a
fixed-capacity array of point-light entries ... and the actual count used this
frame".  The array is a list whose length is the capacity. -/
structure GlobalUbo (R : Type) where
  projection : Mat4 R
  view : Mat4 R
  inverseView : Mat4 R
  pointLights : List (PointLight R)
  numPointLights : Nat
deriving DecidableEq, Repr

/-- How `PointLightSystem::update` ends, with the object set and the uniform
block as they are at that point.  The case `bufferOverrun` is a write past
the last entry of `ubo.pointLights`. -/
inductive UpdateOutcome (R : Type) where
  | ok (gameObjects : GameObjectMap R) (ubo : GlobalUbo R)
  | assertFailed (msg : String) (gameObjects : GameObjectMap R) (ubo : GlobalUbo R)
  | bufferOverrun (gameObjects : GameObjectMap R) (ubo : GlobalUbo R)
deriving DecidableEq, Repr

/-- The loop of `update` (point_light_system.cpp 67-77): `visited` are the
entries already passed (as updated), `lightIndex` the local counter, and
`maxPointLights` the constant `MAX_POINT_LIGHTS`. -/
def updateLoop (maxPointLights : Nat) (rotateLight : Mat4 R) :
    GameObjectMap R → GameObjectMap R → Nat → GlobalUbo R → UpdateOutcome R
  | [], visited, lightIndex, ubo => .ok visited { ubo with numPointLights := lightIndex }
  | (key, obj) :: rest, visited, lightIndex, ubo =>
    match obj.pointLight with
    | none => updateLoop maxPointLights rotateLight rest (visited ++ [(key, obj)]) lightIndex ubo
    | some light =>
      if ¬ lightIndex < maxPointLights then
        .assertFailed "Point lights exceed maximum specified" (visited ++ (key, obj) :: rest) ubo
      else
        let translation : Vec3 R := vec3 (rotateLight.mulVec (vec4 obj.transform.translation 1))
        let moved : LveGameObject R :=
          { obj with transform := { obj.transform with translation := translation } }
        if lightIndex < ubo.pointLights.length then
          let entry : PointLight R :=
            { position := vec4 translation 1, color := vec4 obj.color light.lightIntensity }
          updateLoop maxPointLights rotateLight rest (visited ++ [(key, moved)]) (lightIndex + 1)
            { ubo with pointLights := ubo.pointLights.set lightIndex entry }
        else .bufferOverrun (visited ++ (key, moved) :: rest) ubo

/-- The local `rotateLight` of `update` (point_light_system.cpp 65).  The
argument `glmRotate angle axis` is `glm::rotate(glm::mat4(1.f), angle, axis)`. -/
def rotateLight {R : Type} [LinearOrderedField R] (glmRotate : R → Vec3 R → Mat4 R)
    (frameInfo : FrameInfo R) : Mat4 R :=
  glmRotate (0.5 * frameInfo.frameTime) { x := 0, y := -1, z := 0 }

/-- Translation of `PointLightSystem::update` (point_light_system.cpp 64-79). -/
def PointLightSystem.update {R : Type} [LinearOrderedField R] (maxPointLights : Nat)
    (glmRotate : R → Vec3 R → Mat4 R) (frameInfo : FrameInfo R) (ubo : GlobalUbo R) :
    UpdateOutcome R :=
  updateLoop maxPointLights (rotateLight glmRotate frameInfo) frameInfo.gameObjects [] 0 ubo

/-! ## `PointLightSystem::render` -/

/-- The assignment `sorted[key] = value` on a `std::map` with `float` keys (the
source uses it with `id_t` values), kept as its entries in increasing key
order: a new key is inserted in place, an equivalent key has its value
overwritten. -/
def mapAssign {R α : Type} [LinearOrder R] (key : R) (value : α) :
    List (R × α) → List (R × α)
  | [] => [(key, value)]
  | (k, v) :: rest =>
    if key < k then (key, value) :: (k, v) :: rest
    else if k < key then (k, v) :: mapAssign key value rest
    else (k, value) :: rest

/-- The local `distance` of `render` (point_light_system.cpp 85): `glm::dot` of
the difference of camera position and translation with itself, each operation
in the arithmetic of the scalars. -/
def cameraDistance {R : Type} [Add R] [Sub R] [Mul R] (cameraPosition : Vec3 R)
    (obj : LveGameObject R) : R :=
  dot (cameraPosition.sub obj.transform.translation)
    (cameraPosition.sub obj.transform.translation)

/-- The first loop of `render` (point_light_system.cpp 82-87). -/
def sortLights {R : Type} [LinearOrder R] [Add R] [Sub R] [Mul R] (cameraPosition : Vec3 R) :
    GameObjectMap R → List (R × id_t) → List (R × id_t)
  | [], sorted => sorted
  | (_, obj) :: rest, sorted =>
    match obj.pointLight with
    | none => sortLights cameraPosition rest sorted
    | some _ =>
      sortLights cameraPosition rest (mapAssign (cameraDistance cameraPosition obj) obj.id sorted)

/-- How `PointLightSystem::render` ends, with what is recorded at that point:
normally, by `std::out_of_range` from `at`, or by dereferencing a null
`pointLight`. -/
inductive RenderOutcome (R : Type) where
  | ok (recorded : List (Command R))
  | outOfRange (recorded : List (Command R))
  | nullDereference (recorded : List (Command R))
deriving DecidableEq, Repr

/-- The second loop of `render` (point_light_system.cpp 102-110) over the map
entries in the order given. -/
def drawLights {R : Type} [One R] (gameObjects : GameObjectMap R) :
    List (R × id_t) → List (Command R) → RenderOutcome R
  | [], recorded => .ok recorded
  | (_, id) :: rest, recorded =>
    match gameObjects.at id with
    | none => .outOfRange recorded
    | some obj =>
      match obj.pointLight with
      | none => .nullDereference recorded
      | some light =>
        let push : PointLightPushConstants R :=
          { position := vec4 obj.transform.translation 1
            color := vec4 obj.color light.lightIntensity
            radius := obj.transform.scale.x }
        drawLights gameObjects rest
          (recorded ++ [Command.pushPointLight push] ++ [Command.draw 6 1 0 0])

/-- Translation of `PointLightSystem::render` (point_light_system.cpp 80-111);
the reverse iteration `rbegin() .. rend()` walks the entries by decreasing key. -/
def PointLightSystem.render {R : Type} [LinearOrder R] [Add R] [Sub R] [Mul R] [One R]
    (frameInfo : FrameInfo R) (recorded : List (Command R)) : RenderOutcome R :=
  let sortedPointLightsToCameraDistance :=
    sortLights frameInfo.cameraPosition frameInfo.gameObjects []
  drawLights frameInfo.gameObjects sortedPointLightsToCameraDistance.reverse
    (recorded ++ [Command.bindPipeline] ++
      [Command.bindDescriptorSets frameInfo.globalDescriptorSet])

end Scene

/-! ## A model of `float`

The keys of the distance map in `PointLightSystem::render` are `float`s, and
which lights share a key depends on how the arithmetic rounds.  The render
definitions above therefore work over any type with a linear order and
addition, subtraction and multiplication, no law assumed; `Binary32` is the
instance that rounds like IEEE 754 single precision.
-/

/-- A finite IEEE 754 binary32 value, given by the integer number of units of
`2 ^ (-149)` it amounts to (every finite `float`, subnormals included, is such
a multiple).  The two zeros are one value; infinities and NaN are not
represented. -/
structure Binary32 where
  units : Int
deriving DecidableEq, Repr

/-- The spacing of the binary32 grid around a value of the given magnitude:
the least `step`, doubling from the given one, with `magnitude < step * 2 ^ 24`
(24 significant bits). -/
def Binary32.quantum : Nat → Nat → Nat → Nat
  | 0, _, step => step
  | fuel + 1, magnitude, step =>
    if magnitude < step * 2 ^ 24 then step
    else Binary32.quantum fuel magnitude (2 * step)

/-- Rounding to nearest, ties to even, of the exact value `n * 2 ^ (-149 - scale)`
to a binary32 value.  Overflow to infinity is not modelled. -/
def Binary32.round (n : Int) (scale : Nat) : Binary32 :=
  let unit : Nat := 2 ^ scale
  let step : Nat := Binary32.quantum 600 n.natAbs unit
  let q : Int := n / step
  let r : Int := n % step
  let nearest : Int :=
    if 2 * r < step then q
    else if (step : Int) < 2 * r then q + 1
    else if q % 2 = 0 then q else q + 1
  { units := nearest * ((step / unit : Nat) : Int) }

/-- The binary32 value `m * 2 ^ e`, for `|m| < 2 ^ 24` and `-149 ≤ e`. -/
def Binary32.ofDyadic (m : Int) (e : Int) : Binary32 :=
  { units := m * 2 ^ (e + 149).toNat }

instance : Add Binary32 := ⟨fun a b => Binary32.round (a.units + b.units) 0⟩

instance : Sub Binary32 := ⟨fun a b => Binary32.round (a.units - b.units) 0⟩

instance : Mul Binary32 := ⟨fun a b => Binary32.round (a.units * b.units) 149⟩

instance : Zero Binary32 := ⟨Binary32.ofDyadic 0 0⟩

instance : One Binary32 := ⟨Binary32.ofDyadic 1 0⟩

instance : LinearOrder Binary32 :=
  LinearOrder.lift' Binary32.units (fun a b h => by cases a; cases b; simp_all)

/-- The exact squared distance between two binary32 points, as an integer
number of units of `2 ^ (-298)`. -/
def exactSquaredDistance (a b : Vec3 Binary32) : Int :=
  (a.x.units - b.x.units) ^ 2 + (a.y.units - b.y.units) ^ 2 + (a.z.units - b.z.units) ^ 2

/-! ## Vocabulary for the dispatcher theorems -/

section SceneVocabulary

variable {R : Type} [LinearOrderedRing R]

/-- The push, bind, draw triple of an object with a mesh; nothing without one. -/
def meshCommands (mat4 normalMatrix : TransformComponent R → Mat4 R)
    (obj : LveGameObject R) : List (Command R) :=
  match obj.model with
  | none => []
  | some model =>
    [Command.pushSimple { modelMatrix := mat4 obj.transform,
                          normalMatrix := normalMatrix obj.transform },
     Command.modelBind model, Command.modelDraw model]

/-- True for a mesh draw call. -/
def Command.isModelDraw : Command R → Bool
  | .modelDraw _ => true
  | _ => false

/-- True for a pipeline bind. -/
def Command.isBindPipeline : Command R → Bool
  | .bindPipeline => true
  | _ => false

/-- True for a descriptor set bind. -/
def Command.isBindDescriptorSets : Command R → Bool
  | .bindDescriptorSets _ => true
  | _ => false

/-- True for a vertex-buffer-less draw call (a light sprite). -/
def Command.isDraw : Command R → Bool
  | .draw _ _ _ _ => true
  | _ => false

/-- Whether an entry of the object set has a mesh. -/
def hasModel (entry : id_t × LveGameObject R) : Bool :=
  entry.2.model.isSome

/-- Whether an entry of the object set carries a point light. -/
def hasLight (entry : id_t × LveGameObject R) : Bool :=
  entry.2.pointLight.isSome

/-- The light-bearing objects of a set, in iteration order. -/
def lightObjects (gameObjects : GameObjectMap R) : List (LveGameObject R) :=
  (gameObjects.filter hasLight).map Prod.snd

/-- The push and the 6-vertex draw of one light sprite. -/
def spriteCommands {R : Type} [One R] (obj : LveGameObject R) : List (Command R) :=
  match obj.pointLight with
  | none => []
  | some light =>
    [Command.pushPointLight { position := vec4 obj.transform.translation 1,
                              color := vec4 obj.color light.lightIntensity,
                              radius := obj.transform.scale.x },
     Command.draw 6 1 0 0]

/-- The shape of an `unordered_map` filled by `emplace(obj.getId(), obj)`:
keys are unique and every object is stored under its own id. -/
def WellKeyed (gameObjects : GameObjectMap R) : Prop :=
  (gameObjects.map Prod.fst).Nodup ∧ ∀ entry ∈ gameObjects, entry.2.id = entry.1

/-- An object at position `(x, y, z)` with the given mesh and light. -/
def sampleObject (id : id_t) (x y z : R) (model : Option LveModel)
    (light : Option (PointLightComponent R)) : id_t × LveGameObject R :=
  (id, { id := id, color := { x := 1, y := 1, z := 1 },
         transform := { translation := { x := x, y := y, z := z },
                        scale := { x := 1, y := 1, z := 1 },
                        rotation := { x := 0, y := 0, z := 0 } },
         model := model, pointLight := light })

/-- A frame over the given objects, camera at the origin. -/
def sampleFrame (gameObjects : GameObjectMap ℤ) : FrameInfo ℤ :=
  { frameIndex := 0, frameTime := 0, commandBuffer := 100,
    cameraPosition := { x := 0, y := 0, z := 0 }, globalDescriptorSet := 7,
    gameObjects := gameObjects }

/-- Three objects of which the first and the last have a mesh. -/
def sampleMeshes : GameObjectMap ℤ :=
  [sampleObject 0 0 0 0 (some 11) none, sampleObject 1 1 0 0 none (some { lightIntensity := 1 }),
   sampleObject 2 2 0 0 (some 12) none]

/-- Three lights at squared distances 4, 9 and 1 from the origin, in that order. -/
def sampleLights : GameObjectMap ℤ :=
  [sampleObject 0 2 0 0 none (some { lightIntensity := 1 }),
   sampleObject 1 3 0 0 none (some { lightIntensity := 1 }),
   sampleObject 2 1 0 0 none (some { lightIntensity := 1 })]

/-- Two lights on opposite sides of the origin, both at squared distance 1. -/
def sampleTiedLights : GameObjectMap ℤ :=
  [sampleObject 0 1 0 0 none (some { lightIntensity := 1 }),
   sampleObject 1 (-1) 0 0 none (some { lightIntensity := 1 })]

/-- An object with its translation multiplied by the rotation, as `update`
leaves a light-bearing object. -/
def rotated (rotateLight : Mat4 R) (obj : LveGameObject R) : LveGameObject R :=
  { obj with
    transform := { obj.transform with
      translation := vec3 (rotateLight.mulVec (vec4 obj.transform.translation 1)) } }

/-- What `update` does to one entry of the object set: a light-bearing object
is rotated, any other object is kept. -/
def moveLight (rotateLight : Mat4 R) (entry : id_t × LveGameObject R) :
    id_t × LveGameObject R :=
  match entry.2.pointLight with
  | none => entry
  | some _ => (entry.1, rotated rotateLight entry.2)

/-- The light array entry describing an object as it stands: position =
(translation, 1) and color = (color, light intensity). -/
def slotOf (obj : LveGameObject R) (light : PointLightComponent R) : PointLight R :=
  { position := vec4 obj.transform.translation 1,
    color := vec4 obj.color light.lightIntensity }

/-- The light array entry of an object with a light, none without. -/
def entryOf (obj : LveGameObject R) : Option (PointLight R) :=
  obj.pointLight.map (slotOf obj)

/-- The light array entries of the light-bearing objects of a set, in iteration order. -/
def slotEntries (gameObjects : GameObjectMap R) : List (PointLight R) :=
  (lightObjects gameObjects).filterMap entryOf

/-- Whether an update ended in the failed assertion. -/
def UpdateOutcome.isAssertFailed : UpdateOutcome R → Bool
  | .assertFailed _ _ _ => true
  | _ => false

/-- Whether an update ended by writing past the light array. -/
def UpdateOutcome.isBufferOverrun : UpdateOutcome R → Bool
  | .bufferOverrun _ _ => true
  | _ => false

/-- The uniform block an update outcome carries. -/
def UpdateOutcome.ubo : UpdateOutcome R → GlobalUbo R
  | .ok _ ubo => ubo
  | .assertFailed _ _ ubo => ubo
  | .bufferOverrun _ ubo => ubo

/-- A uniform block with a light array of two zeroed entries. -/
def sampleUbo : GlobalUbo ℚ :=
  { projection := Mat4.identity, view := Mat4.identity, inverseView := Mat4.identity,
    pointLights := List.replicate 2
      { position := { x := 0, y := 0, z := 0, w := 0 },
        color := { x := 0, y := 0, z := 0, w := 0 } },
    numPointLights := 0 }

/-- A frame of 1/60 s over a mesh and two lights. -/
def sampleUpdateFrame : FrameInfo ℚ :=
  { frameIndex := 0, frameTime := 1 / 60, commandBuffer := 100,
    cameraPosition := { x := 0, y := 0, z := 0 }, globalDescriptorSet := 7,
    gameObjects :=
      [sampleObject 0 1 0 0 none (some { lightIntensity := 1 / 5 }),
       sampleObject 1 0 0 0 (some 11) none,
       sampleObject 2 0 0 1 none (some { lightIntensity := 1 / 5 })] }

/-- A frame of 1/60 s over three lights. -/
def sampleCrowdedFrame : FrameInfo ℚ :=
  { frameIndex := 0, frameTime := 1 / 60, commandBuffer := 100,
    cameraPosition := { x := 0, y := 0, z := 0 }, globalDescriptorSet := 7,
    gameObjects :=
      [sampleObject 0 1 0 0 none (some { lightIntensity := 1 / 5 }),
       sampleObject 1 0 1 0 none (some { lightIntensity := 1 / 5 }),
       sampleObject 2 0 0 1 none (some { lightIntensity := 1 / 5 })] }

/-- A stand-in for `glm::rotate`: the quarter turn that maps x to z and z to -x,
whatever the angle and axis. -/
def sampleRotate (_angle : ℚ) (_axis : Vec3 ℚ) : Mat4 ℚ :=
  { c0 := { x := 0, y := 0, z := 1, w := 0 }, c1 := { x := 0, y := 1, z := 0, w := 0 },
    c2 := { x := -1, y := 0, z := 0, w := 0 }, c3 := { x := 0, y := 0, z := 0, w := 1 } }

/-- The cross product of two vectors. -/
def cross (a b : Vec3 R) : Vec3 R :=
  { x := a.y * b.z - a.z * b.y, y := a.z * b.x - a.x * b.z, z := a.x * b.y - a.y * b.x }

/-- The rotation of the point `p` by `angle` about the unit vector `axis`,
counter-clockwise seen against the axis (Rodrigues' formula):
`p cos + (axis × p) sin + axis (axis · p) (1 - cos)`.  This is the
`rotate(p, angle, axis)` of the specification, over given cosine and sine
functions. -/
def rotateAbout (cos sin : R → R) (p : Vec3 R) (angle : R) (axis : Vec3 R) : Vec3 R :=
  let c := cos angle
  let s := sin angle
  let t := dot axis p * (1 - c)
  { x := p.x * c + (cross axis p).x * s + axis.x * t,
    y := p.y * c + (cross axis p).y * s + axis.y * t,
    z := p.z * c + (cross axis p).z * s + axis.z * t }

/-- The function `glm::rotate(m, angle, v)` of the glm library
(ext/matrix_transform.inl) at `m = mat4(1)`: the axis is `v` normalised with
`inversesqrt`, and the arguments `cos`, `sin` and `inversesqrt` are the
functions of those names. -/
def rotationFrom (cos sin inversesqrt : R → R) (angle : R) (v : Vec3 R) : Mat4 R :=
  let c := cos angle
  let s := sin angle
  let k := inversesqrt (dot v v)
  let axis : Vec3 R := { x := v.x * k, y := v.y * k, z := v.z * k }
  let temp : Vec3 R := { x := (1 - c) * axis.x, y := (1 - c) * axis.y, z := (1 - c) * axis.z }
  let m : Mat4 R := Mat4.identity
  { c0 := ((m.c0.smul (c + temp.x * axis.x)).add
            (m.c1.smul (temp.x * axis.y + s * axis.z))).add
            (m.c2.smul (temp.x * axis.z - s * axis.y)),
    c1 := ((m.c0.smul (temp.y * axis.x - s * axis.z)).add
            (m.c1.smul (c + temp.y * axis.y))).add
            (m.c2.smul (temp.y * axis.z + s * axis.x)),
    c2 := ((m.c0.smul (temp.z * axis.x + s * axis.y)).add
            (m.c1.smul (temp.z * axis.y - s * axis.x))).add
            (m.c2.smul (c + temp.z * axis.z)),
    c3 := m.c3 }

/-- A rational stand-in for the cosine, exact at 0: the cosine of the angle
whose half has tangent `a`. -/
def sampleCos (a : ℚ) : ℚ := (1 - a * a) / (1 + a * a)

/-- A rational stand-in for the sine, exact at 0: the sine of the angle whose
half has tangent `a`. -/
def sampleSin (a : ℚ) : ℚ := 2 * a / (1 + a * a)

/-- A rational stand-in for the inverse square root, exact at 1. -/
def sampleInverseSqrt (x : ℚ) : ℚ := (3 - x) / 2

/-- A frame with no time elapsed over a single light at (1, 0, 0). -/
def sampleStillFrame : FrameInfo ℚ :=
  { frameIndex := 0, frameTime := 0, commandBuffer := 100,
    cameraPosition := { x := 0, y := 0, z := 0 }, globalDescriptorSet := 7,
    gameObjects := [sampleObject 0 1 0 0 none (some { lightIntensity := 1 / 5 })] }

/-- The squared distance between two points in the arithmetic of `R`: the
squares of the three coordinate differences, summed from x to z. -/
def squaredDistance {R : Type} [Add R] [Sub R] [Mul R] (a b : Vec3 R) : R :=
  (a.x - b.x) * (a.x - b.x) + (a.y - b.y) * (a.y - b.y) + (a.z - b.z) * (a.z - b.z)

/-- A white binary32 point light of intensity 1 and unit scale at `(x, y, z)`. -/
def binary32Light (id : id_t) (x y z : Binary32) : id_t × LveGameObject Binary32 :=
  (id, { id := id, color := { x := 1, y := 1, z := 1 },
         transform := { translation := { x := x, y := y, z := z },
                        scale := { x := 1, y := 1, z := 1 },
                        rotation := { x := 0, y := 0, z := 0 } },
         model := none, pointLight := some { lightIntensity := 1 } })

/-- A binary32 frame over the given objects with the camera at `camera`. -/
def binary32Frame (camera : Vec3 Binary32) (gameObjects : GameObjectMap Binary32) :
    FrameInfo Binary32 :=
  { frameIndex := 0, frameTime := 0, commandBuffer := 100, cameraPosition := camera,
    globalDescriptorSet := 7, gameObjects := gameObjects }

/-- The camera position (1, 2, 3). -/
def sampleCamera : Vec3 Binary32 :=
  { x := 1, y := Binary32.ofDyadic 2 0, z := Binary32.ofDyadic 3 0 }

/-- Three lights at (3, 2, 3), (-2, 2, 3) and (1, 2, 4): squared distances 4, 9
and 1 from `sampleCamera`, in that order. -/
def sampleFloatLights : GameObjectMap Binary32 :=
  [binary32Light 5 (Binary32.ofDyadic 3 0) (Binary32.ofDyadic 2 0) (Binary32.ofDyadic 3 0),
   binary32Light 3 (Binary32.ofDyadic (-2) 0) (Binary32.ofDyadic 2 0) (Binary32.ofDyadic 3 0),
   binary32Light 8 1 (Binary32.ofDyadic 2 0) (Binary32.ofDyadic 4 0)]

/-- Two lights at (1, 0, 0) and (1, 2⁻¹³, 0): their squared distances from the
origin are 1 and 1 + 2⁻²⁶. -/
def sampleNearLights : GameObjectMap Binary32 :=
  [binary32Light 0 1 0 0, binary32Light 1 1 (Binary32.ofDyadic 1 (-13)) 0]

/-- Two lights at (1 + 1990 * 2⁻²³, 1 + 2124 * 2⁻²³, 0) and (1 + 2052 * 2⁻²³,
1 + 2062 * 2⁻²³, 0): the first is the farther one from the origin, by
8928 * 2⁻⁴⁶ in squared distance. -/
def sampleCloseLights : GameObjectMap Binary32 :=
  [binary32Light 0 (Binary32.ofDyadic (2 ^ 23 + 1990) (-23))
      (Binary32.ofDyadic (2 ^ 23 + 2124) (-23)) 0,
   binary32Light 1 (Binary32.ofDyadic (2 ^ 23 + 2052) (-23))
      (Binary32.ofDyadic (2 ^ 23 + 2062) (-23)) 0]

end SceneVocabulary

/-! ## Conditions under which a recreation completes -/

/-- Some recorded extent reading is non-degenerate, so the wait loop exits. -/
def extentSettles (env : RecreateEnv) : Bool :=
  (env.extent :: env.later).any fun e => decide (e.width ≠ 0) && decide (e.height ≠ 0)

/-- Image and depth format of the swapchain the renderer holds, if any. -/
def swapFormats (s : LveRenderer) : Option (VkFormat × VkFormat) :=
  s.lveSwapChain.map fun c => (c.imageFormat, c.depthFormat)

/-- The swapchain built under `env` has the formats of the one the renderer holds. -/
def keepsFormats (env : RecreateEnv) (s : LveRenderer) : Prop :=
  swapFormats s = some (env.imageFormat, env.depthFormat)

instance (env : RecreateEnv) (s : LveRenderer) : Decidable (keepsFormats env s) := by
  unfold keepsFormats; infer_instance

/-- The slot whose command buffer the next successful `beginFrame` hands out. -/
def nextSlot (s : LveRenderer) : Nat :=
  if s.isFrameStarted then s.currentFrameIndex + 1 else s.currentFrameIndex

/-- The renderer state an outcome carries. -/
def Outcome.state {α : Type} : Outcome α → LveRenderer
  | .ok _ s => s
  | .assertFailed _ s => s
  | .runtimeError _ s => s
  | .blocked s => s
  | .undefinedBehaviour s => s

/-- Number of `getExtent` readings in a trace; `recreateSwapChain` is the only
operation that reads the extent, and it does so first thing. -/
def extentReads (trace : List Event) : Nat :=
  trace.count Event.getExtent

/-- Whether an operation started from `s` and ending as `o` entered `recreateSwapChain`. -/
def recreationTriggered {α : Type} (s : LveRenderer) (o : Outcome α) : Prop :=
  extentReads s.trace < extentReads o.state.trace

/-- Whether an outcome is a failed assertion. -/
def Outcome.isAssertFailed {α : Type} : Outcome α → Bool
  | .assertFailed _ _ => true
  | _ => false

/-- Whether an outcome is a thrown `std::runtime_error`. -/
def Outcome.isRuntimeError {α : Type} : Outcome α → Bool
  | .runtimeError _ _ => true
  | _ => false

/-- The extent the wait loop of `recreateSwapChain` leaves with: the first
recorded reading that is non-degenerate, if there is one. -/
def settledExtent (env : RecreateEnv) : Option VkExtent2D :=
  (env.extent :: env.later).find? fun e => decide (e.width ≠ 0) && decide (e.height ≠ 0)

/-- Whether an operation returned normally. -/
def Outcome.isOk {α : Type} : Outcome α → Bool
  | .ok _ _ => true
  | _ => false

/-- Whether `commandBuffer` is the command buffer of the current frame slot of
a renderer with a frame open. -/
def isCurrentCommandBuffer (commandBuffer : Option VkCommandBuffer) (s : LveRenderer) : Prop :=
  s.isFrameStarted = true ∧
    ∃ current, commandBuffer = some current ∧ getCurrentCommandBuffer s = some current

/-! ## Sample inputs used to exercise the theorems -/

/-- A recreation oracle: an 800x600 window on the first reading. -/
def sampleRecreate : RecreateEnv :=
  { extent := { width := 800, height := 600 }, later := [], imageFormat := 44, depthFormat := 126 }

/-- A recreation oracle for a minimised window restored on the second reading. -/
def sampleRestore : RecreateEnv :=
  { extent := { width := 0, height := 0 }, later := [{ width := 640, height := 480 }],
    imageFormat := 44, depthFormat := 126 }

/-- A constructor oracle handing out the handles 100, 101, ... -/
def sampleConstructEnv : ConstructEnv :=
  { recreate := sampleRecreate, allocResult := VK_SUCCESS, allocated := fun i => 100 + i }

/-- The renderer that `sampleConstructEnv` constructs with two frames in flight. -/
def sampleRenderer : LveRenderer :=
  { lveSwapChain := some { extent := { width := 800, height := 600 }, imageFormat := 44,
                           depthFormat := 126 },
    commandBuffers := [100, 101], currentImageIndex := 0, currentFrameIndex := 0,
    isFrameStarted := false,
    trace := [Event.getExtent, Event.vkDeviceWaitIdle,
      Event.createSwapChain { width := 800, height := 600 } false,
      Event.vkAllocateCommandBuffers 2] }

/-- A successful acquire of swapchain image `imageIndex`. -/
def acquireOk (imageIndex : Nat) : BeginFrameEnv :=
  { acquireResult := VK_SUCCESS, imageIndex := imageIndex, beginResult := VK_SUCCESS,
    recreate := sampleRecreate }

/-- An acquire that reports the swapchain out of date. -/
def acquireStale : BeginFrameEnv :=
  { acquireResult := VK_ERROR_OUT_OF_DATE_KHR, imageIndex := 0, beginResult := VK_SUCCESS,
    recreate := sampleRestore }

/-- A submit/present with the given result and resize flag. -/
def presentWith (result : VkResult) (resized : Bool) : EndFrameEnv :=
  { endResult := VK_SUCCESS, submitResult := result, wasWindowResized := resized,
    recreate := sampleRecreate }

/-- Four frames with a stale acquire and a resize in between. -/
def sampleCalls : List Call :=
  [Call.beginFrame (acquireOk 2), Call.endFrame (presentWith VK_SUCCESS false),
   Call.beginFrame acquireStale,
   Call.beginFrame (acquireOk 0), Call.endFrame (presentWith VK_SUBOPTIMAL_KHR true),
   Call.beginFrame (acquireOk 0), Call.endFrame (presentWith VK_SUCCESS false),
   Call.beginFrame (acquireOk 1)]

/-- The sample renderer with the frame of slot 0 open on swapchain image 2. -/
def sampleOpenRenderer : LveRenderer :=
  { sampleRenderer with
    currentImageIndex := 2
    isFrameStarted := true
    trace := sampleRenderer.trace ++ [Event.acquireNextImage, Event.vkBeginCommandBuffer 100] }

/-- A recreation oracle under which the surface comes back with another image format. -/
def sampleReformat : RecreateEnv :=
  { extent := { width := 0, height := 0 }, later := [{ width := 640, height := 480 }],
    imageFormat := 50, depthFormat := 126 }

/-- An acquire that reports the swapchain suboptimal. -/
def acquireSuboptimal : BeginFrameEnv :=
  { acquireResult := VK_SUBOPTIMAL_KHR, imageIndex := 1, beginResult := VK_SUCCESS,
    recreate := sampleRecreate }

/-! # Theorems -/

/-! ## Basic facts -/

theorem VK_SUCCESS_ne_OUT_OF_DATE : VK_SUCCESS ≠ VK_ERROR_OUT_OF_DATE_KHR := by decide

theorem VK_SUBOPTIMAL_ne_OUT_OF_DATE : VK_SUBOPTIMAL_KHR ≠ VK_ERROR_OUT_OF_DATE_KHR := by decide

theorem VK_SUCCESS_ne_SUBOPTIMAL : VK_SUCCESS ≠ VK_SUBOPTIMAL_KHR := by decide

theorem recreations_append (a b : List Event) :
    recreations (a ++ b) = recreations a + recreations b := by
  simp [recreations]

theorem waitForExtent_recreations (later : List VkExtent2D) :
    ∀ (extent : VkExtent2D) (trace : List Event),
      recreations (waitForExtent extent later trace).2 = recreations trace := by
  induction later with
  | nil => intro extent trace; unfold waitForExtent; split <;> rfl
  | cons next rest ih =>
    intro extent trace
    unfold waitForExtent
    split
    · rw [ih, recreations_append]; rfl
    · rfl

theorem waitForExtent_settles (later : List VkExtent2D) :
    ∀ (extent : VkExtent2D) (trace : List Event),
      ((extent :: later).any fun e => decide (e.width ≠ 0) && decide (e.height ≠ 0)) = true →
      ∃ e, (waitForExtent extent later trace).1 = some e ∧ e.width ≠ 0 ∧ e.height ≠ 0 := by
  induction later with
  | nil =>
    intro extent trace h
    unfold waitForExtent
    simp at h
    have hd : ¬ (extent.width = 0 ∨ extent.height = 0) := by tauto
    rw [if_neg hd]
    exact ⟨extent, rfl, h.1, h.2⟩
  | cons next rest ih =>
    intro extent trace h
    unfold waitForExtent
    by_cases hd : extent.width = 0 ∨ extent.height = 0
    · rw [if_pos hd]
      apply ih
      have : (decide (extent.width ≠ 0) && decide (extent.height ≠ 0)) = false := by
        rcases hd with hd | hd <;> simp [hd]
      rw [List.any_cons, this, Bool.false_or] at h
      exact h
    · rw [if_neg hd]
      exact ⟨extent, rfl, by tauto, by tauto⟩

theorem waitForExtent_none_of_not_settles (later : List VkExtent2D) :
    ∀ (extent : VkExtent2D) (trace : List Event),
      ((extent :: later).any fun e => decide (e.width ≠ 0) && decide (e.height ≠ 0)) = false →
      (waitForExtent extent later trace).1 = none := by
  induction later with
  | nil =>
    intro extent trace h
    unfold waitForExtent
    simp at h
    have hd : extent.width = 0 ∨ extent.height = 0 := by
      by_cases hw : extent.width = 0
      · exact Or.inl hw
      · exact Or.inr (h hw)
    rw [if_pos hd]
  | cons next rest ih =>
    intro extent trace h
    unfold waitForExtent
    rw [List.any_cons, Bool.or_eq_false_iff] at h
    have hd : extent.width = 0 ∨ extent.height = 0 := by
      have h1 := h.1
      simp at h1
      by_cases hw : extent.width = 0
      · exact Or.inl hw
      · exact Or.inr (h1 hw)
    rw [if_pos hd]
    exact ih _ _ h.2

/-- A recreation that returns leaves the frame flag, the slot index, the image
index and the command buffers alone and builds exactly one swapchain. -/
theorem recreateSwapChain_ok_frame (env : RecreateEnv) (s s' : LveRenderer) (u : Unit)
    (h : recreateSwapChain env s = .ok u s') :
    s'.isFrameStarted = s.isFrameStarted ∧ s'.currentFrameIndex = s.currentFrameIndex ∧
    s'.commandBuffers = s.commandBuffers ∧ s'.currentImageIndex = s.currentImageIndex ∧
    recreations s'.trace = recreations s.trace + 1 ∧
    swapFormats s' = some (env.imageFormat, env.depthFormat) := by
  unfold recreateSwapChain at h
  have hw := waitForExtent_recreations env.later env.extent (s.trace ++ [Event.getExtent])
  revert h hw
  rcases waitForExtent env.extent env.later (s.trace ++ [Event.getExtent]) with ⟨_ | e, tr⟩
  · intro h; simp at h
  · intro h hw
    have hw2 : recreations tr = recreations s.trace := by
      simpa [recreations_append, recreations, Event.isCreateSwapChain] using hw
    cases hsc : s.lveSwapChain with
    | none =>
      simp only [hsc] at h
      injection h with _ h
      subst h
      refine ⟨rfl, rfl, rfl, rfl, ?_, ?_⟩
      · show recreations (tr ++ _) = _
        rw [recreations_append, hw2]; rfl
      · simp [swapFormats]
    | some old =>
      simp only [hsc] at h
      split at h
      · injection h with _ h
        subst h
        refine ⟨rfl, rfl, rfl, rfl, ?_, ?_⟩
        · show recreations (tr ++ _) = _
          rw [recreations_append, hw2]; rfl
        · simp [swapFormats]
      · simp at h

/-- A recreation returns normally when the extent readings settle and the
formats of the new swapchain are those of the current one. -/
theorem recreateSwapChain_returns (env : RecreateEnv) (s : LveRenderer)
    (hext : extentSettles env = true) (hfmt : keepsFormats env s) :
    ∃ s', recreateSwapChain env s = .ok () s' := by
  obtain ⟨e, he, _, _⟩ :=
    waitForExtent_settles env.later env.extent (s.trace ++ [Event.getExtent]) hext
  unfold recreateSwapChain
  revert he
  rcases waitForExtent env.extent env.later (s.trace ++ [Event.getExtent]) with ⟨o, tr⟩
  intro he
  simp only at he
  subst he
  unfold keepsFormats swapFormats at hfmt
  cases hsc : s.lveSwapChain with
  | none => rw [hsc] at hfmt; simp at hfmt
  | some old =>
    rw [hsc] at hfmt
    simp at hfmt
    simp [compareSwapFormats, hfmt.1, hfmt.2]

/-! ## Inversion lemmas for the frame operations -/

theorem Outcome.bind_eq_ok {α β : Type} (o : Outcome α) (f : α → LveRenderer → Outcome β)
    (b : β) (s' : LveRenderer) (h : o.bind f = .ok b s') :
    ∃ a s1, o = .ok a s1 ∧ f a s1 = .ok b s' := by
  cases o with
  | ok a s1 => exact ⟨a, s1, rfl, h⟩
  | assertFailed m s1 => simp [Outcome.bind] at h
  | runtimeError m s1 => simp [Outcome.bind] at h
  | blocked s1 => simp [Outcome.bind] at h
  | undefinedBehaviour s1 => simp [Outcome.bind] at h

theorem Outcome.bind_ok {α β : Type} (a : α) (s : LveRenderer)
    (f : α → LveRenderer → Outcome β) : (Outcome.ok a s).bind f = f a s := rfl

theorem runCalls_cons_beginFrame (maxFramesInFlight : Nat) (env : BeginFrameEnv)
    (rest : List Call) (s : LveRenderer) :
    runCalls maxFramesInFlight (Call.beginFrame env :: rest) s =
      (beginFrame env s).bind fun r s1 =>
        (runCalls maxFramesInFlight rest s1).bind fun rs s2 => .ok (r :: rs) s2 := rfl

/-- What a returning `beginFrame` did: it ran on a closed frame, kept the slot
index and the command buffers, and either abandoned the frame or opened it on
the current slot's command buffer. -/
theorem beginFrame_ok_inv (env : BeginFrameEnv) (s s' : LveRenderer)
    (r : Option VkCommandBuffer) (h : beginFrame env s = .ok r s') :
    s.isFrameStarted = false ∧ s'.commandBuffers = s.commandBuffers ∧
    s'.currentFrameIndex = s.currentFrameIndex ∧
    ((r = none ∧ s'.isFrameStarted = false) ∨
     (∃ cb, r = some cb ∧ s.commandBuffers[s.currentFrameIndex]? = some cb ∧
        s'.isFrameStarted = true)) := by
  unfold beginFrame at h
  cases hf : s.isFrameStarted with
  | true => simp [hf] at h
  | false =>
    simp only [hf] at h
    refine ⟨rfl, ?_⟩
    split at h
    · simp at h
    · split at h
      · obtain ⟨u, s1, h1, h2⟩ := Outcome.bind_eq_ok _ _ _ _ h
        obtain ⟨i1, i2, i3, _, _, _⟩ := recreateSwapChain_ok_frame _ _ _ _ h1
        injection h2 with hr hs
        subst hr hs
        refine ⟨i3, i2, Or.inl ⟨rfl, ?_⟩⟩
        rw [i1]
      · split at h
        · simp at h
        · revert h
          simp only [getCurrentCommandBuffer]
          cases hcb : s.commandBuffers[s.currentFrameIndex]? with
          | none => intro h; simp at h
          | some cb =>
            intro h
            simp only at h
            split at h
            · simp at h
            · injection h with hr hs
              subst hr hs
              exact ⟨rfl, rfl, Or.inr ⟨cb, rfl, rfl, rfl⟩⟩

/-- What a returning `endFrame` did. -/
theorem endFrame_ok_inv (maxFramesInFlight : Nat) (env : EndFrameEnv) (s s' : LveRenderer)
    (u : Unit) (h : endFrame maxFramesInFlight env s = .ok u s') :
    s.isFrameStarted = true ∧ s'.isFrameStarted = false ∧
    s'.currentFrameIndex = (s.currentFrameIndex + 1) % maxFramesInFlight ∧
    s'.commandBuffers = s.commandBuffers := by
  unfold endFrame at h
  cases hf : s.isFrameStarted with
  | false => simp [hf] at h
  | true =>
    simp only [hf] at h
    refine ⟨rfl, ?_⟩
    revert h
    cases hcb : getCurrentCommandBuffer s with
    | none => intro h; simp at h
    | some cb =>
      intro h
      simp only [not_true_eq_false, if_false] at h
      split at h
      · simp at h
      · obtain ⟨u1, s3, h1, h2⟩ := Outcome.bind_eq_ok _ _ _ _ h
        injection h2 with _ hs
        subst hs
        have key : s3.currentFrameIndex = s.currentFrameIndex ∧
            s3.commandBuffers = s.commandBuffers := by
          unfold endFrameResync at h1
          split at h1
          · obtain ⟨_, i2, i3, _, _, _⟩ := recreateSwapChain_ok_frame _ _ _ _ h1
            exact ⟨i2, i3⟩
          · split at h1
            · simp at h1
            · injection h1 with _ hs
              subst hs
              exact ⟨rfl, rfl⟩
        refine ⟨rfl, ?_, key.2⟩
        show (s3.currentFrameIndex + 1) % maxFramesInFlight = _
        rw [key.1]

/-- Round robin from any state: the `j`-th command buffer handed out by a run
is the one of slot `(nextSlot s + j) % N`. -/
theorem runCalls_round_robin (maxFramesInFlight : Nat) (calls : List Call) :
    ∀ (s s' : LveRenderer) (results : List (Option VkCommandBuffer)),
      s.commandBuffers.length = maxFramesInFlight →
      runCalls maxFramesInFlight calls s = .ok results s' →
      ∀ j, j < (successes results).length →
        (successes results)[j]? = s.commandBuffers[(nextSlot s + j) % maxFramesInFlight]? := by
  induction calls with
  | nil =>
    intro s s' results _ h j hj
    simp only [runCalls] at h
    injection h with hr _
    subst hr
    simp [successes] at hj
  | cons c rest ih =>
    intro s s' results hlen h j hj
    cases c with
    | beginFrame env =>
      simp only [runCalls] at h
      obtain ⟨r, s1, h1, h2⟩ := Outcome.bind_eq_ok _ _ _ _ h
      obtain ⟨rs, s2, h3, h4⟩ := Outcome.bind_eq_ok _ _ _ _ h2
      injection h4 with hr _
      subst hr
      obtain ⟨hclosed, hcbs, hidx, hcase⟩ := beginFrame_ok_inv _ _ _ _ h1
      have hlen1 : s1.commandBuffers.length = maxFramesInFlight := by rw [hcbs]; exact hlen
      have hs : nextSlot s = s.currentFrameIndex := by simp [nextSlot, hclosed]
      rcases hcase with ⟨hnone, hclosed1⟩ | ⟨cb, hsome, hget, hopen1⟩
      · subst hnone
        have hs1 : nextSlot s1 = s.currentFrameIndex := by simp [nextSlot, hclosed1, hidx]
        have := ih s1 s2 rs hlen1 h3 j (by simpa [successes] using hj)
        rw [hs1, hcbs] at this
        rw [hs]
        simpa [successes] using this
      · subst hsome
        have hs1 : nextSlot s1 = s.currentFrameIndex + 1 := by simp [nextSlot, hopen1, hidx]
        have hlt : s.currentFrameIndex < maxFramesInFlight := by
          rw [← hlen]
          by_contra hge
          rw [List.getElem?_eq_none (Nat.le_of_not_lt hge)] at hget
          simp at hget
        cases j with
        | zero =>
          rw [hs]
          simp [successes, Nat.mod_eq_of_lt hlt, hget]
        | succ j =>
          have := ih s1 s2 rs hlen1 h3 j (by simpa [successes] using hj)
          rw [hs1, hcbs] at this
          rw [hs]
          have e : (s.currentFrameIndex + (j + 1)) = (s.currentFrameIndex + 1 + j) := by omega
          rw [e]
          simpa [successes] using this
    | endFrame env =>
      simp only [runCalls] at h
      obtain ⟨u, s1, h1, h2⟩ := Outcome.bind_eq_ok _ _ _ _ h
      obtain ⟨hopen, hclosed1, hidx, hcbs⟩ := endFrame_ok_inv _ _ _ _ _ h1
      have hlen1 : s1.commandBuffers.length = maxFramesInFlight := by rw [hcbs]; exact hlen
      have := ih s1 s' results hlen1 h2 j hj
      have hs : nextSlot s = s.currentFrameIndex + 1 := by simp [nextSlot, hopen]
      have hs1 : nextSlot s1 = (s.currentFrameIndex + 1) % maxFramesInFlight := by
        simp [nextSlot, hclosed1, hidx]
      rw [hs1, hcbs, Nat.mod_add_mod] at this
      rw [hs]
      exact this

/-- A constructed renderer has one command buffer per slot, slot index 0 and no open frame. -/
theorem construct_ok_inv (maxFramesInFlight : Nat) (env : ConstructEnv) (s0 : LveRenderer)
    (u : Unit) (h : LveRenderer.construct maxFramesInFlight env = .ok u s0) :
    s0.commandBuffers.length = maxFramesInFlight ∧ s0.currentFrameIndex = 0 ∧
    s0.isFrameStarted = false := by
  unfold LveRenderer.construct at h
  obtain ⟨u1, s1, h1, h2⟩ := Outcome.bind_eq_ok _ _ _ _ h
  obtain ⟨i1, i2, _, _, _, _⟩ := recreateSwapChain_ok_frame _ _ _ _ h1
  unfold createCommandBuffers at h2
  split at h2
  · simp at h2
  · injection h2 with _ hs
    subst hs
    refine ⟨by simp, ?_, ?_⟩
    · show s1.currentFrameIndex = 0
      rw [i2]; rfl
    · show s1.isFrameStarted = false
      rw [i1]; rfl

/-! ## Round robin over frame slots -/

/-- C1: from a freshly constructed renderer, in every run of `beginFrame` /
`endFrame` calls that goes through (the open/closed protocol is respected and
nothing is fatal; stale and successful acquires in any mix, any image indices),
the `k`-th successful `beginFrame` returns the command buffer of slot `k % N`,
and any `N` consecutive successes are the `N` slots' command buffers in
round-robin order (a rotation of the slot list, each slot once). -/
theorem beginFrame_round_robin (maxFramesInFlight : Nat) (cenv : ConstructEnv)
    (s0 s' : LveRenderer) (calls : List Call) (results : List (Option VkCommandBuffer))
    (hc : LveRenderer.construct maxFramesInFlight cenv = .ok () s0)
    (hrun : runCalls maxFramesInFlight calls s0 = .ok results s') :
    s0.commandBuffers.length = maxFramesInFlight ∧
    (∀ k, k < (successes results).length →
      (successes results)[k]? = s0.commandBuffers[k % maxFramesInFlight]?) ∧
    (∀ j, j + maxFramesInFlight ≤ (successes results).length →
      ((successes results).drop j).take maxFramesInFlight = s0.commandBuffers.rotate j) := by
  obtain ⟨hlen, hidx, hclosed⟩ := construct_ok_inv _ _ _ _ hc
  have hslot : nextSlot s0 = 0 := by simp [nextSlot, hclosed, hidx]
  have hk : ∀ k, k < (successes results).length →
      (successes results)[k]? = s0.commandBuffers[k % maxFramesInFlight]? := by
    intro k hlt
    have := runCalls_round_robin maxFramesInFlight calls s0 s' results hlen hrun k hlt
    rw [hslot, Nat.zero_add] at this
    exact this
  refine ⟨hlen, hk, ?_⟩
  intro j hj
  apply List.ext_getElem?
  intro i
  rw [List.getElem?_take]
  by_cases hi : i < maxFramesInFlight
  · rw [if_pos hi, List.getElem?_drop, hk (j + i) (by omega),
      List.getElem?_rotate (by rw [hlen]; exact hi), hlen, Nat.add_comm]
  · rw [if_neg hi, List.getElem?_eq_none]
    rw [List.length_rotate, hlen]
    exact Nat.le_of_not_lt hi

theorem beginFrame_round_robin_witness :
    sampleRenderer.commandBuffers.length = 2 ∧
    (∀ k, k < (successes [some 100, none, some 101, some 100, some 101]).length →
      (successes [some 100, none, some 101, some 100, some 101])[k]? =
        sampleRenderer.commandBuffers[k % 2]?) ∧
    (∀ j, j + 2 ≤ (successes [some 100, none, some 101, some 100, some 101]).length →
      ((successes [some 100, none, some 101, some 100, some 101]).drop j).take 2 =
        sampleRenderer.commandBuffers.rotate j) :=
  beginFrame_round_robin 2 sampleConstructEnv sampleRenderer
    (runCalls 2 sampleCalls sampleRenderer).state sampleCalls
    [some 100, none, some 101, some 100, some 101] (by rfl) (by rfl)

/-! ## Stale acquires -/

/-- One stale acquire on a closed frame whose recreation completes. -/
theorem beginFrame_stale_step (env : BeginFrameEnv) (s : LveRenderer)
    (hclosed : s.isFrameStarted = false)
    (hstale : env.acquireResult = VK_ERROR_OUT_OF_DATE_KHR)
    (hext : extentSettles env.recreate = true)
    (hfmt : swapFormats s = some (env.recreate.imageFormat, env.recreate.depthFormat)) :
    ∃ s', beginFrame env s = .ok none s' ∧ s'.isFrameStarted = false ∧
      s'.currentFrameIndex = s.currentFrameIndex ∧ s'.commandBuffers = s.commandBuffers ∧
      recreations s'.trace = recreations s.trace + 1 ∧ swapFormats s' = swapFormats s := by
  obtain ⟨sc, cbs, img, idx, started, tr⟩ := s
  simp only at hclosed
  subst hclosed
  obtain ⟨s', hs'⟩ := recreateSwapChain_returns env.recreate
    { lveSwapChain := sc, commandBuffers := cbs, currentImageIndex := env.imageIndex,
      currentFrameIndex := idx, isFrameStarted := false,
      trace := tr ++ [Event.acquireNextImage] }
    hext hfmt
  obtain ⟨i1, i2, i3, _, i5, i6⟩ := recreateSwapChain_ok_frame _ _ _ _ hs'
  refine ⟨s', ?_, i1, i2, i3, ?_, ?_⟩
  · unfold beginFrame
    simp only [Bool.false_eq_true, if_false, hstale, if_true, hs', Outcome.bind_ok]
  · rw [i5, recreations_append]; rfl
  · rw [i6, hfmt]

/-- Any number of stale acquires in a row, each with a recreation that completes. -/
theorem runCalls_stale (maxFramesInFlight : Nat) (fmt : VkFormat × VkFormat)
    (stale : List BeginFrameEnv) :
    ∀ s : LveRenderer, s.isFrameStarted = false → swapFormats s = some fmt →
      (∀ env ∈ stale, env.acquireResult = VK_ERROR_OUT_OF_DATE_KHR ∧
        extentSettles env.recreate = true ∧
        (env.recreate.imageFormat, env.recreate.depthFormat) = fmt) →
      ∀ (rest : List Call),
      ∃ s1, s1.isFrameStarted = false ∧ s1.currentFrameIndex = s.currentFrameIndex ∧
        s1.commandBuffers = s.commandBuffers ∧
        recreations s1.trace = recreations s.trace + stale.length ∧
        runCalls maxFramesInFlight (stale.map Call.beginFrame ++ rest) s =
          (runCalls maxFramesInFlight rest s1).bind fun rs s2 =>
            .ok (List.replicate stale.length none ++ rs) s2 := by
  induction stale with
  | nil =>
    intro s hclosed _ _ rest
    refine ⟨s, hclosed, rfl, rfl, rfl, ?_⟩
    simp only [List.map_nil, List.nil_append, List.length_nil, List.replicate_zero]
    cases runCalls maxFramesInFlight rest s <;> rfl
  | cons env more ih =>
    intro s hclosed hfmt hall rest
    obtain ⟨h1, h2, h3⟩ := hall env (List.mem_cons_self _ _)
    obtain ⟨s', hb, c1, c2, c3, c4, c5⟩ :=
      beginFrame_stale_step env s hclosed h1 h2 (by rw [hfmt, h3])
    obtain ⟨s1, d1, d2, d3, d4, d5⟩ :=
      ih s' c1 (by rw [c5, hfmt]) (fun e he => hall e (List.mem_cons_of_mem _ he)) rest
    refine ⟨s1, d1, by rw [d2, c2], by rw [d3, c3], ?_, ?_⟩
    · rw [d4, c4, List.length_cons]; omega
    · rw [List.map_cons, List.cons_append, runCalls_cons_beginFrame, hb, Outcome.bind_ok, d5]
      cases runCalls maxFramesInFlight rest s1 <;>
        simp [Outcome.bind, List.replicate_succ]

/-- C2: on a closed frame a stale (out-of-date) acquire whose recreation
completes makes `beginFrame` build exactly one swapchain and return no command
buffer, with the frame still closed and the slot index and the command buffer
list unchanged; so `k` stale acquires followed by a successful one return no
frame `k` times and then the command buffer of the slot that was current before
the first stale call. -/
theorem beginFrame_stale_then_success (maxFramesInFlight : Nat) (s : LveRenderer)
    (fmt : VkFormat × VkFormat) (hclosed : s.isFrameStarted = false)
    (hfmt : swapFormats s = some fmt) :
    (∀ env : BeginFrameEnv, env.acquireResult = VK_ERROR_OUT_OF_DATE_KHR →
      extentSettles env.recreate = true →
      (env.recreate.imageFormat, env.recreate.depthFormat) = fmt →
      ∃ s', beginFrame env s = .ok none s' ∧ s'.isFrameStarted = false ∧
        s'.currentFrameIndex = s.currentFrameIndex ∧ s'.commandBuffers = s.commandBuffers ∧
        recreations s'.trace = recreations s.trace + 1) ∧
    (∀ (stale : List BeginFrameEnv) (good : BeginFrameEnv) (cb : VkCommandBuffer),
      (∀ env ∈ stale, env.acquireResult = VK_ERROR_OUT_OF_DATE_KHR ∧
        extentSettles env.recreate = true ∧
        (env.recreate.imageFormat, env.recreate.depthFormat) = fmt) →
      good.acquireResult = VK_SUCCESS → good.beginResult = VK_SUCCESS →
      getCurrentCommandBuffer s = some cb →
      ∃ s', runCalls maxFramesInFlight
          (stale.map Call.beginFrame ++ [Call.beginFrame good]) s =
            .ok (List.replicate stale.length none ++ [some cb]) s' ∧
        recreations s'.trace = recreations s.trace + stale.length ∧
        s'.currentFrameIndex = s.currentFrameIndex ∧ s'.isFrameStarted = true) := by
  constructor
  · intro env h1 h2 h3
    obtain ⟨s', hb, c1, c2, c3, c4, _⟩ :=
      beginFrame_stale_step env s hclosed h1 h2 (by rw [hfmt, h3])
    exact ⟨s', hb, c1, c2, c3, c4⟩
  · intro stale good cb hall hacq hbeg hcb
    obtain ⟨s1, d1, d2, d3, d4, d5⟩ :=
      runCalls_stale maxFramesInFlight fmt stale s hclosed hfmt hall [Call.beginFrame good]
    have hcb1 : s1.commandBuffers[s1.currentFrameIndex]? = some cb := by
      rw [d2, d3]; exact hcb
    have hgood : beginFrame good s1 = .ok (some cb)
        { s1 with
          currentImageIndex := good.imageIndex
          isFrameStarted := true
          trace := s1.trace ++ [Event.acquireNextImage] ++ [Event.vkBeginCommandBuffer cb] } := by
      unfold beginFrame
      simp [d1, hacq, hbeg, getCurrentCommandBuffer, hcb1, VK_SUCCESS_ne_OUT_OF_DATE]
    refine ⟨{ s1 with
          currentImageIndex := good.imageIndex
          isFrameStarted := true
          trace := s1.trace ++ [Event.acquireNextImage] ++ [Event.vkBeginCommandBuffer cb] },
      ?_, ?_, ?_, ?_⟩
    · rw [d5, runCalls_cons_beginFrame, hgood]
      rfl
    · simp only [recreations_append, d4]
      rfl
    · exact d2
    · rfl

theorem beginFrame_stale_then_success_witness :
    ∃ s', runCalls 2 ([acquireStale, acquireStale].map Call.beginFrame ++
        [Call.beginFrame (acquireOk 1)]) sampleRenderer =
          .ok (List.replicate [acquireStale, acquireStale].length none ++ [some 100]) s' ∧
      recreations s'.trace = recreations sampleRenderer.trace + [acquireStale, acquireStale].length ∧
      s'.currentFrameIndex = sampleRenderer.currentFrameIndex ∧ s'.isFrameStarted = true :=
  (beginFrame_stale_then_success 2 sampleRenderer (44, 126) (by rfl) (by rfl)).2
    [acquireStale, acquireStale] (acquireOk 1) 100 (by decide) (by rfl) (by rfl) (by rfl)

/-! ## End of frame -/

theorem waitForExtent_extentReads (later : List VkExtent2D) :
    ∀ (extent : VkExtent2D) (trace : List Event),
      extentReads trace ≤ extentReads (waitForExtent extent later trace).2 := by
  induction later with
  | nil => intro extent trace; unfold waitForExtent; split <;> exact Nat.le_refl _
  | cons next rest ih =>
    intro extent trace
    unfold waitForExtent
    split
    · refine Nat.le_trans ?_ (ih _ _)
      simp [extentReads]
    · exact Nat.le_refl _

/-- Entering `recreateSwapChain` is visible in the trace, however the call ends. -/
theorem recreateSwapChain_reads_extent (env : RecreateEnv) (s : LveRenderer) :
    extentReads s.trace < extentReads (recreateSwapChain env s).state.trace := by
  have hw := waitForExtent_extentReads env.later env.extent (s.trace ++ [Event.getExtent])
  have h0 : extentReads (s.trace ++ [Event.getExtent]) = extentReads s.trace + 1 := by
    simp [extentReads]
  unfold recreateSwapChain
  revert hw
  rcases waitForExtent env.extent env.later (s.trace ++ [Event.getExtent]) with ⟨_ | e, tr⟩
  · intro hw
    simp only [Outcome.state] at hw ⊢
    omega
  · intro hw
    simp only at hw
    cases s.lveSwapChain with
    | none =>
      simp only [Outcome.state, extentReads, List.count_append] at hw h0 ⊢
      omega
    | some old =>
      simp only
      split <;>
      · simp only [Outcome.state, extentReads, List.count_append] at hw h0 ⊢
        omega

theorem recreateSwapChain_not_assert (env : RecreateEnv) (s : LveRenderer) :
    (recreateSwapChain env s).isAssertFailed = false := by
  unfold recreateSwapChain
  rcases waitForExtent env.extent env.later (s.trace ++ [Event.getExtent]) with ⟨_ | e, tr⟩
  · rfl
  · cases s.lveSwapChain with
    | none => rfl
    | some old => simp only; split <;> rfl

theorem Outcome.bind_isAssertFailed {α β : Type} (o : Outcome α)
    (f : α → LveRenderer → Outcome β) (ho : o.isAssertFailed = false)
    (hf : ∀ a s, (f a s).isAssertFailed = false) : (o.bind f).isAssertFailed = false := by
  cases o with
  | ok a s => exact hf a s
  | assertFailed m s => simp [Outcome.isAssertFailed] at ho
  | runtimeError m s => rfl
  | blocked s => rfl
  | undefinedBehaviour s => rfl

/-- C3: an `endFrame` that returns normally (which it only does on an open
frame) leaves the frame closed and the slot index at `(old + 1) % N`, both when
it went through a swapchain recreation (one more swapchain built) and when it
did not (none built). -/
theorem endFrame_advances_slot (maxFramesInFlight : Nat) (env : EndFrameEnv)
    (s s' : LveRenderer) (h : endFrame maxFramesInFlight env s = .ok () s') :
    s.isFrameStarted = true ∧ s'.isFrameStarted = false ∧
    s'.currentFrameIndex = (s.currentFrameIndex + 1) % maxFramesInFlight ∧
    recreations s'.trace = recreations s.trace +
      (if env.submitResult = VK_ERROR_OUT_OF_DATE_KHR ∨ env.submitResult = VK_SUBOPTIMAL_KHR ∨
          env.wasWindowResized = true then 1 else 0) := by
  obtain ⟨h1, h2, h3, _⟩ := endFrame_ok_inv _ _ _ _ _ h
  refine ⟨h1, h2, h3, ?_⟩
  unfold endFrame at h
  simp only [h1, not_true_eq_false, if_false] at h
  revert h
  cases hcb : getCurrentCommandBuffer s with
  | none => intro h; simp at h
  | some cb =>
    intro h
    simp only at h
    split at h
    · simp at h
    · obtain ⟨u1, s3, e1, e2⟩ := Outcome.bind_eq_ok _ _ _ _ h
      injection e2 with _ hs
      subst hs
      show recreations s3.trace = _
      unfold endFrameResync at e1
      split at e1
      · rename_i hc
        obtain ⟨_, _, _, _, i5, _⟩ := recreateSwapChain_ok_frame _ _ _ _ e1
        rw [i5, if_pos hc]
        simp [recreations_append, recreations, Event.isCreateSwapChain]
      · rename_i hc
        split at e1
        · simp at e1
        · injection e1 with _ hs
          subst hs
          rw [if_neg hc]
          simp [recreations_append, recreations, Event.isCreateSwapChain]

theorem endFrame_advances_slot_witness :
    sampleOpenRenderer.isFrameStarted = true ∧
    (endFrame 2 (presentWith VK_SUBOPTIMAL_KHR true) sampleOpenRenderer).state.isFrameStarted
      = false ∧
    (endFrame 2 (presentWith VK_SUBOPTIMAL_KHR true) sampleOpenRenderer).state.currentFrameIndex
      = (sampleOpenRenderer.currentFrameIndex + 1) % 2 ∧
    recreations (endFrame 2 (presentWith VK_SUBOPTIMAL_KHR true) sampleOpenRenderer).state.trace
      = recreations sampleOpenRenderer.trace +
        (if (presentWith VK_SUBOPTIMAL_KHR true).submitResult = VK_ERROR_OUT_OF_DATE_KHR ∨
            (presentWith VK_SUBOPTIMAL_KHR true).submitResult = VK_SUBOPTIMAL_KHR ∨
            (presentWith VK_SUBOPTIMAL_KHR true).wasWindowResized = true then 1 else 0) :=
  endFrame_advances_slot 2 (presentWith VK_SUBOPTIMAL_KHR true) sampleOpenRenderer
    (endFrame 2 (presentWith VK_SUBOPTIMAL_KHR true) sampleOpenRenderer).state (by rfl)

/-- The shape of `endFrame` once recording has ended and the submit was made. -/
theorem endFrame_after_submit (maxFramesInFlight : Nat) (env : EndFrameEnv) (s : LveRenderer)
    (cb : VkCommandBuffer) (hopen : s.isFrameStarted = true)
    (hcb : getCurrentCommandBuffer s = some cb) (hend : env.endResult = VK_SUCCESS) :
    endFrame maxFramesInFlight env s =
      (endFrameResync env { s with
          trace := s.trace ++ [Event.vkEndCommandBuffer cb] ++
            [Event.submitCommandBuffers cb s.currentImageIndex] }).bind fun _ s3 =>
        .ok () { s3 with
          isFrameStarted := false
          currentFrameIndex := (s3.currentFrameIndex + 1) % maxFramesInFlight } := by
  unfold endFrame
  simp [hopen, hcb, hend]

/-- C4 as stated fails: with the resize flag set, a submit/present result that
is neither success nor a staleness signal (here a lost device) does not make
`endFrame` raise; the recreation branch is taken and the call returns. -/
theorem endFrame_resize_masks_failure :
    VK_ERROR_DEVICE_LOST ≠ VK_SUCCESS ∧ VK_ERROR_DEVICE_LOST ≠ VK_ERROR_OUT_OF_DATE_KHR ∧
    VK_ERROR_DEVICE_LOST ≠ VK_SUBOPTIMAL_KHR ∧ sampleOpenRenderer.isFrameStarted = true ∧
    (endFrame 2 (presentWith VK_ERROR_DEVICE_LOST true) sampleOpenRenderer).isRuntimeError
      = false ∧
    endFrame 2 (presentWith VK_ERROR_DEVICE_LOST true) sampleOpenRenderer =
      .ok () { sampleOpenRenderer with
        isFrameStarted := false
        currentFrameIndex := 1
        trace := sampleOpenRenderer.trace ++
          [Event.vkEndCommandBuffer 100, Event.submitCommandBuffers 100 2,
           Event.resetWindowResizedFlag, Event.getExtent, Event.vkDeviceWaitIdle,
           Event.createSwapChain { width := 800, height := 600 } true] } := by
  decide

/-- C4, amended: in `endFrame` on an open frame whose recording ended and was
submitted, swapchain recreation is entered exactly when the submit/present
result is out-of-date or suboptimal or the resize flag is set; every other
result that is not success raises the runtime error when the resize flag is
not set, with the frame still open and the slot index not advanced. -/
theorem endFrame_resync_condition (maxFramesInFlight : Nat) (env : EndFrameEnv)
    (s : LveRenderer) (cb : VkCommandBuffer) (hopen : s.isFrameStarted = true)
    (hcb : getCurrentCommandBuffer s = some cb) (hend : env.endResult = VK_SUCCESS) :
    (recreationTriggered s (endFrame maxFramesInFlight env s) ↔
      (env.submitResult = VK_ERROR_OUT_OF_DATE_KHR ∨ env.submitResult = VK_SUBOPTIMAL_KHR ∨
        env.wasWindowResized = true)) ∧
    (env.submitResult ≠ VK_SUCCESS → env.submitResult ≠ VK_ERROR_OUT_OF_DATE_KHR →
      env.submitResult ≠ VK_SUBOPTIMAL_KHR → env.wasWindowResized = false →
      endFrame maxFramesInFlight env s =
        .runtimeError "failed to acquire swap chain image!"
          { s with trace := s.trace ++ [Event.vkEndCommandBuffer cb] ++
              [Event.submitCommandBuffers cb s.currentImageIndex] }) := by
  rw [endFrame_after_submit maxFramesInFlight env s cb hopen hcb hend]
  constructor
  · unfold recreationTriggered endFrameResync
    by_cases hc : env.submitResult = VK_ERROR_OUT_OF_DATE_KHR ∨
        env.submitResult = VK_SUBOPTIMAL_KHR ∨ env.wasWindowResized = true
    · rw [if_pos hc]
      refine ⟨fun _ => hc, fun _ => ?_⟩
      have hr := recreateSwapChain_reads_extent env.recreate
        { s with trace := s.trace ++ [Event.vkEndCommandBuffer cb] ++
            [Event.submitCommandBuffers cb s.currentImageIndex] ++
            [Event.resetWindowResizedFlag] }
      have hle : extentReads s.trace ≤ extentReads (s.trace ++ [Event.vkEndCommandBuffer cb] ++
            [Event.submitCommandBuffers cb s.currentImageIndex] ++
            [Event.resetWindowResizedFlag]) := by
        simp [extentReads]
      refine Nat.lt_of_le_of_lt hle ?_
      revert hr
      cases recreateSwapChain env.recreate
        { s with trace := s.trace ++ [Event.vkEndCommandBuffer cb] ++
            [Event.submitCommandBuffers cb s.currentImageIndex] ++
            [Event.resetWindowResizedFlag] } <;> exact fun hr => hr
    · rw [if_neg hc]
      refine ⟨fun h => ?_, fun h => absurd h hc⟩
      exfalso
      revert h
      split <;> simp [Outcome.bind, Outcome.state, extentReads]
  · intro h1 h2 h3 h4
    unfold endFrameResync
    have hc : ¬ (env.submitResult = VK_ERROR_OUT_OF_DATE_KHR ∨
        env.submitResult = VK_SUBOPTIMAL_KHR ∨ env.wasWindowResized = true) := by
      simp [h2, h3, h4]
    rw [if_neg hc, if_pos ⟨h1, h3⟩]
    rfl

theorem endFrame_resync_condition_witness :
    (recreationTriggered sampleOpenRenderer
        (endFrame 2 (presentWith VK_ERROR_DEVICE_LOST false) sampleOpenRenderer) ↔
      ((presentWith VK_ERROR_DEVICE_LOST false).submitResult = VK_ERROR_OUT_OF_DATE_KHR ∨
        (presentWith VK_ERROR_DEVICE_LOST false).submitResult = VK_SUBOPTIMAL_KHR ∨
        (presentWith VK_ERROR_DEVICE_LOST false).wasWindowResized = true)) ∧
    endFrame 2 (presentWith VK_ERROR_DEVICE_LOST false) sampleOpenRenderer =
      .runtimeError "failed to acquire swap chain image!"
        { sampleOpenRenderer with
          trace := sampleOpenRenderer.trace ++ [Event.vkEndCommandBuffer 100] ++
            [Event.submitCommandBuffers 100 sampleOpenRenderer.currentImageIndex] } :=
  ⟨(endFrame_resync_condition 2 (presentWith VK_ERROR_DEVICE_LOST false) sampleOpenRenderer 100
      (by rfl) (by rfl) (by rfl)).1,
   (endFrame_resync_condition 2 (presentWith VK_ERROR_DEVICE_LOST false) sampleOpenRenderer 100
      (by rfl) (by rfl) (by rfl)).2 (by decide) (by decide) (by decide) (by rfl)⟩

/-! ## Out-of-order calls -/

theorem beginFrame_closed_not_assert (env : BeginFrameEnv) (s : LveRenderer)
    (hclosed : s.isFrameStarted = false) : (beginFrame env s).isAssertFailed = false := by
  unfold beginFrame
  simp only [hclosed, Bool.false_eq_true, if_false]
  split
  · exact Outcome.bind_isAssertFailed _ _ (recreateSwapChain_not_assert _ _) (fun _ _ => rfl)
  · split
    · rfl
    · split
      · rfl
      · split <;> rfl

theorem endFrameResync_not_assert (env : EndFrameEnv) (s : LveRenderer) :
    (endFrameResync env s).isAssertFailed = false := by
  unfold endFrameResync
  split
  · exact recreateSwapChain_not_assert _ _
  · split <;> rfl

theorem endFrame_open_not_assert (maxFramesInFlight : Nat) (env : EndFrameEnv) (s : LveRenderer)
    (hopen : s.isFrameStarted = true) :
    (endFrame maxFramesInFlight env s).isAssertFailed = false := by
  unfold endFrame
  simp only [hopen, not_true_eq_false, if_false]
  split
  · rfl
  · split
    · rfl
    · exact Outcome.bind_isAssertFailed _ _ (endFrameResync_not_assert _ _) (fun _ _ => rfl)

/-- C5: `beginFrame` fails its assertion exactly when a frame is already open
(so a second `beginFrame` right after a successful one fails), `endFrame`
exactly when none is open, and a failing call ends in the state it was
entered in: nothing acquired or submitted, slot index untouched. -/
theorem frame_order_asserts (maxFramesInFlight : Nat) (benv : BeginFrameEnv)
    (eenv : EndFrameEnv) (s : LveRenderer) :
    ((beginFrame benv s).isAssertFailed = true ↔ s.isFrameStarted = true) ∧
    (s.isFrameStarted = true →
      beginFrame benv s = .assertFailed "Cannot call beginFrame while in progress" s) ∧
    ((endFrame maxFramesInFlight eenv s).isAssertFailed = true ↔ s.isFrameStarted = false) ∧
    (s.isFrameStarted = false →
      endFrame maxFramesInFlight eenv s =
        .assertFailed "Cannot call endFrame while frame is not in progress" s) ∧
    (∀ (cb : VkCommandBuffer) (s1 : LveRenderer) (again : BeginFrameEnv),
      beginFrame benv s = .ok (some cb) s1 →
      beginFrame again s1 = .assertFailed "Cannot call beginFrame while in progress" s1) := by
  have hb : s.isFrameStarted = true →
      beginFrame benv s = .assertFailed "Cannot call beginFrame while in progress" s := by
    intro h; unfold beginFrame; simp [h]
  have he : s.isFrameStarted = false →
      endFrame maxFramesInFlight eenv s =
        .assertFailed "Cannot call endFrame while frame is not in progress" s := by
    intro h; unfold endFrame; simp [h]
  refine ⟨?_, hb, ?_, he, ?_⟩
  · constructor
    · intro h
      by_contra hn
      rw [beginFrame_closed_not_assert benv s (by simpa using hn)] at h
      exact Bool.false_ne_true h
    · intro h; rw [hb h]; rfl
  · constructor
    · intro h
      by_contra hn
      rw [endFrame_open_not_assert maxFramesInFlight eenv s (by simpa using hn)] at h
      exact Bool.false_ne_true h
    · intro h; rw [he h]; rfl
  · intro cb s1 again h
    obtain ⟨_, _, _, hcase⟩ := beginFrame_ok_inv _ _ _ _ h
    rcases hcase with ⟨hnone, _⟩ | ⟨_, _, _, hopen⟩
    · simp at hnone
    · unfold beginFrame; simp [hopen]

theorem frame_order_asserts_witness :
    beginFrame (acquireOk 1) sampleOpenRenderer =
        .assertFailed "Cannot call beginFrame while in progress" sampleOpenRenderer ∧
    endFrame 2 (presentWith VK_SUCCESS false) sampleRenderer =
        .assertFailed "Cannot call endFrame while frame is not in progress" sampleRenderer ∧
    beginFrame acquireStale (beginFrame (acquireOk 2) sampleRenderer).state =
        .assertFailed "Cannot call beginFrame while in progress"
          (beginFrame (acquireOk 2) sampleRenderer).state :=
  ⟨(frame_order_asserts 2 (acquireOk 1) (presentWith VK_SUCCESS false) sampleOpenRenderer).2.1
      (by rfl),
   (frame_order_asserts 2 (acquireOk 1) (presentWith VK_SUCCESS false) sampleRenderer).2.2.2.1
      (by rfl),
   (frame_order_asserts 2 (acquireOk 2) (presentWith VK_SUCCESS false) sampleRenderer).2.2.2.2
      100 (beginFrame (acquireOk 2) sampleRenderer).state acquireStale (by rfl)⟩

/-! ## Mesh dispatch -/

theorem renderObjectsLoop_eq {R : Type} (mat4 normalMatrix : TransformComponent R → Mat4 R)
    (gameObjects : GameObjectMap R) :
    ∀ recorded : List (Command R),
      renderObjectsLoop mat4 normalMatrix gameObjects recorded =
        recorded ++ gameObjects.flatMap fun entry => meshCommands mat4 normalMatrix entry.2 := by
  induction gameObjects with
  | nil => intro recorded; simp [renderObjectsLoop]
  | cons entry rest ih =>
    intro recorded
    obtain ⟨key, obj⟩ := entry
    unfold renderObjectsLoop
    cases hm : obj.model with
    | none => simp [ih, meshCommands, hm, List.flatMap_cons]
    | some model => simp [ih, meshCommands, hm, List.flatMap_cons]

theorem meshCommands_count {R : Type} (mat4 normalMatrix : TransformComponent R → Mat4 R)
    (obj : LveGameObject R) :
    (meshCommands mat4 normalMatrix obj).countP Command.isModelDraw =
        (if obj.model.isSome then 1 else 0) ∧
    (meshCommands mat4 normalMatrix obj).countP Command.isBindPipeline = 0 ∧
    (meshCommands mat4 normalMatrix obj).countP Command.isBindDescriptorSets = 0 := by
  unfold meshCommands
  cases obj.model with
  | none => simp
  | some model =>
    simp [List.countP_cons, Command.isModelDraw, Command.isBindPipeline,
      Command.isBindDescriptorSets]

theorem meshCommands_counts {R : Type} (mat4 normalMatrix : TransformComponent R → Mat4 R)
    (gameObjects : GameObjectMap R) :
    (gameObjects.flatMap fun entry => meshCommands mat4 normalMatrix entry.2).countP
        Command.isModelDraw = (gameObjects.filter hasModel).length ∧
    (gameObjects.flatMap fun entry => meshCommands mat4 normalMatrix entry.2).countP
        Command.isBindPipeline = 0 ∧
    (gameObjects.flatMap fun entry => meshCommands mat4 normalMatrix entry.2).countP
        Command.isBindDescriptorSets = 0 := by
  induction gameObjects with
  | nil => exact ⟨rfl, rfl, rfl⟩
  | cons entry rest ih =>
    obtain ⟨key, obj⟩ := entry
    obtain ⟨ih1, ih2, ih3⟩ := ih
    obtain ⟨m1, m2, m3⟩ := meshCommands_count mat4 normalMatrix obj
    rw [List.flatMap_cons, List.countP_append, List.countP_append, List.countP_append,
      ih1, ih2, ih3, m1, m2, m3, List.filter_cons]
    refine ⟨?_, rfl, rfl⟩
    cases hm : obj.model with
    | none => simp [hasModel, hm]
    | some model => simp [hasModel, hm]; omega

/-- C6: `renderGameObjects` records one pipeline bind and one descriptor set
bind, then for each object with a mesh, in iteration order, its push
constants, mesh bind and mesh draw, and nothing for an object without a mesh;
the number of mesh draws recorded is the number of objects with a mesh, and
the pipeline and the descriptor set are each bound once. -/
theorem renderGameObjects_draws {R : Type} (mat4 normalMatrix : TransformComponent R → Mat4 R)
    (frameInfo : FrameInfo R) (recorded : List (Command R)) :
    RenderSystem.renderGameObjects mat4 normalMatrix frameInfo recorded =
      recorded ++ [Command.bindPipeline,
          Command.bindDescriptorSets frameInfo.globalDescriptorSet] ++
        (frameInfo.gameObjects.flatMap fun entry => meshCommands mat4 normalMatrix entry.2) ∧
    (∀ obj : LveGameObject R, obj.model = none → meshCommands mat4 normalMatrix obj = []) ∧
    (RenderSystem.renderGameObjects mat4 normalMatrix frameInfo recorded).countP Command.isModelDraw =
      recorded.countP Command.isModelDraw + (frameInfo.gameObjects.filter hasModel).length ∧
    (RenderSystem.renderGameObjects mat4 normalMatrix frameInfo recorded).countP Command.isBindPipeline =
      recorded.countP Command.isBindPipeline + 1 ∧
    (RenderSystem.renderGameObjects mat4 normalMatrix frameInfo recorded).countP
        Command.isBindDescriptorSets = recorded.countP Command.isBindDescriptorSets + 1 := by
  have heq : RenderSystem.renderGameObjects mat4 normalMatrix frameInfo recorded =
      recorded ++ [Command.bindPipeline,
          Command.bindDescriptorSets frameInfo.globalDescriptorSet] ++
        (frameInfo.gameObjects.flatMap fun entry => meshCommands mat4 normalMatrix entry.2) := by
    unfold RenderSystem.renderGameObjects
    rw [renderObjectsLoop_eq]
    simp
  obtain ⟨c1, c2, c3⟩ := meshCommands_counts mat4 normalMatrix frameInfo.gameObjects
  refine ⟨heq, ?_, ?_, ?_, ?_⟩
  · intro obj h; simp [meshCommands, h]
  · rw [heq, List.countP_append, List.countP_append, c1]
    simp [List.countP_cons, Command.isModelDraw]
  · rw [heq, List.countP_append, List.countP_append, c2]
    simp [List.countP_cons, Command.isBindPipeline]
  · rw [heq, List.countP_append, List.countP_append, c3]
    simp [List.countP_cons, Command.isBindDescriptorSets]

theorem renderGameObjects_draws_witness :
    (RenderSystem.renderGameObjects (fun _ => Mat4.identity) (fun _ => Mat4.identity)
        (sampleFrame sampleMeshes) []).countP Command.isModelDraw = 2 ∧
    (RenderSystem.renderGameObjects (fun _ => Mat4.identity) (fun _ => Mat4.identity)
        (sampleFrame sampleMeshes) []).filter Command.isModelDraw =
      [Command.modelDraw 11, Command.modelDraw 12] :=
  ⟨(renderGameObjects_draws (fun _ => Mat4.identity) (fun _ => Mat4.identity)
      (sampleFrame sampleMeshes) []).2.2.1, by decide⟩

/-! ## Light sprites, far to near -/

theorem mapAssign_perm {R α : Type} [LinearOrder R] (key : R) (value : α)
    (entries : List (R × α)) (hnew : key ∉ entries.map Prod.fst) :
    (mapAssign key value entries).Perm ((key, value) :: entries) := by
  induction entries with
  | nil => exact List.Perm.refl _
  | cons e rest ih =>
    obtain ⟨k, v⟩ := e
    simp only [List.map_cons, List.mem_cons, not_or] at hnew
    unfold mapAssign
    by_cases h1 : key < k
    · rw [if_pos h1]
    · rw [if_neg h1]
      have h2 : k < key := lt_of_le_of_ne (not_lt.mp h1) (Ne.symm hnew.1)
      rw [if_pos h2]
      exact ((ih hnew.2).cons (k, v)).trans (List.Perm.swap _ _ _)

theorem mapAssign_sorted {R α : Type} [LinearOrder R] (key : R) (value : α)
    (entries : List (R × α)) (hsorted : (entries.map Prod.fst).Sorted (· < ·))
    (hnew : key ∉ entries.map Prod.fst) :
    ((mapAssign key value entries).map Prod.fst).Sorted (· < ·) := by
  induction entries with
  | nil => simp [mapAssign]
  | cons e rest ih =>
    obtain ⟨k, v⟩ := e
    have hnew2 := hnew
    simp only [List.map_cons, List.mem_cons, not_or] at hnew2
    simp only [List.map_cons, List.sorted_cons] at hsorted
    unfold mapAssign
    by_cases h1 : key < k
    · rw [if_pos h1]
      simp only [List.map_cons, List.sorted_cons, List.mem_cons]
      refine ⟨?_, hsorted⟩
      rintro b (rfl | hb)
      · exact h1
      · exact lt_trans h1 (hsorted.1 b hb)
    · rw [if_neg h1]
      have h2 : k < key := lt_of_le_of_ne (not_lt.mp h1) (Ne.symm hnew2.1)
      rw [if_pos h2]
      simp only [List.map_cons, List.sorted_cons]
      refine ⟨?_, ih hsorted.2 hnew2.2⟩
      intro b hb
      have hp := ((mapAssign_perm key value rest hnew2.2).map Prod.fst).mem_iff.mp hb
      simp only [List.map_cons, List.mem_cons] at hp
      rcases hp with rfl | hp
      · exact h2
      · exact hsorted.1 b hp

/-- Assigning commutes with relabelling the values. -/
theorem mapAssign_map {R α β : Type} [LinearOrder R] (g : α → β) (key : R) (value : α)
    (entries : List (R × α)) :
    mapAssign key (g value) (entries.map fun e => (e.1, g e.2)) =
      (mapAssign key value entries).map fun e => (e.1, g e.2) := by
  induction entries with
  | nil => rfl
  | cons e rest ih =>
    obtain ⟨k, v⟩ := e
    simp only [List.map_cons, mapAssign]
    by_cases h1 : key < k
    · simp [h1]
    · by_cases h2 : k < key
      · simp [h1, h2, ih]
      · simp [h1, h2]

/-- The map built by the first loop of `render`, with each id replaced by its object. -/
theorem sortLights_eq_foldl {R : Type} [LinearOrder R] [Add R] [Sub R] [Mul R]
    (cameraPosition : Vec3 R)
    (gameObjects : GameObjectMap R) (hkeys : ∀ entry ∈ gameObjects, entry.2.id = entry.1) :
    ∀ sorted : List (R × LveGameObject R),
      sortLights cameraPosition gameObjects (sorted.map fun e => (e.1, e.2.id)) =
        ((lightObjects gameObjects).foldl
          (fun m obj => mapAssign (cameraDistance cameraPosition obj) obj m) sorted).map
          fun e => (e.1, e.2.id) := by
  induction gameObjects with
  | nil => intro sorted; rfl
  | cons entry rest ih =>
    intro sorted
    obtain ⟨key, obj⟩ := entry
    have hrest : ∀ entry ∈ rest, entry.2.id = entry.1 :=
      fun e he => hkeys e (List.mem_cons_of_mem _ he)
    unfold sortLights
    cases hl : obj.pointLight with
    | none =>
      simp only [lightObjects, List.filter_cons, hasLight, hl, Option.isSome_none,
        Bool.false_eq_true, if_false]
      exact ih hrest sorted
    | some light =>
      simp only [lightObjects, List.filter_cons, hasLight, hl, Option.isSome_some, if_true,
        List.map_cons, List.foldl_cons]
      rw [mapAssign_map (fun o : LveGameObject R => o.id)]
      exact ih hrest _

theorem foldl_mapAssign {R α : Type} [LinearOrder R] (d : α → R) (items : List α) :
    ∀ acc : List (R × α), (acc.map Prod.fst).Sorted (· < ·) → (items.map d).Nodup →
      (∀ a ∈ items, d a ∉ acc.map Prod.fst) →
      (items.foldl (fun m a => mapAssign (d a) a m) acc).Perm
          ((items.map fun a => (d a, a)) ++ acc) ∧
        ((items.foldl (fun m a => mapAssign (d a) a m) acc).map Prod.fst).Sorted (· < ·) := by
  induction items with
  | nil => intro acc hs _ _; exact ⟨List.Perm.refl _, hs⟩
  | cons a rest ih =>
    intro acc hs hnd hnew
    simp only [List.map_cons, List.nodup_cons] at hnd
    have ha : d a ∉ acc.map Prod.fst := hnew a (List.mem_cons_self _ _)
    have hp := mapAssign_perm (d a) a acc ha
    have hs1 := mapAssign_sorted (d a) a acc hs ha
    have hnew1 : ∀ b ∈ rest, d b ∉ (mapAssign (d a) a acc).map Prod.fst := by
      intro b hb hmem
      have := (hp.map Prod.fst).mem_iff.mp hmem
      simp only [List.map_cons, List.mem_cons] at this
      rcases this with h | h
      · exact hnd.1 (h ▸ List.mem_map_of_mem d hb)
      · exact hnew b (List.mem_cons_of_mem _ hb) h
    obtain ⟨q1, q2⟩ := ih (mapAssign (d a) a acc) hs1 hnd.2 hnew1
    refine ⟨?_, q2⟩
    simp only [List.foldl_cons, List.map_cons, List.cons_append]
    exact q1.trans ((List.Perm.append_left _ hp).trans List.perm_middle)

theorem GameObjectMap.at_of_mem {R : Type} (gameObjects : GameObjectMap R)
    (hnodup : (gameObjects.map Prod.fst).Nodup) (key : id_t) (obj : LveGameObject R)
    (hmem : (key, obj) ∈ gameObjects) : gameObjects.at key = some obj := by
  induction gameObjects with
  | nil => simp at hmem
  | cons e rest ih =>
    obtain ⟨k, o⟩ := e
    simp only [List.map_cons, List.nodup_cons] at hnodup
    simp only [List.mem_cons, Prod.mk.injEq] at hmem
    unfold GameObjectMap.at
    rcases hmem with ⟨rfl, rfl⟩ | hmem
    · simp [List.find?_cons]
    · have hne : k ≠ key := by
        rintro rfl
        exact hnodup.1 (List.mem_map_of_mem Prod.fst hmem)
      have := ih hnodup.2 hmem
      unfold GameObjectMap.at at this
      simp [List.find?_cons, hne, this]

theorem mem_lightObjects {R : Type} (gameObjects : GameObjectMap R) (obj : LveGameObject R)
    (h : obj ∈ lightObjects gameObjects) :
    obj.pointLight ≠ none ∧ ∃ key, (key, obj) ∈ gameObjects := by
  unfold lightObjects at h
  simp only [List.mem_map, List.mem_filter] at h
  obtain ⟨⟨k, o⟩, ⟨hmem, hl⟩, rfl⟩ := h
  refine ⟨?_, k, hmem⟩
  simp only [hasLight] at hl
  intro hn
  rw [hn] at hl
  simp at hl

theorem drawLights_eq {R : Type} [One R] (gameObjects : GameObjectMap R)
    (entries : List (R × LveGameObject R)) :
    ∀ recorded : List (Command R),
      (∀ e ∈ entries, gameObjects.at e.2.id = some e.2 ∧ e.2.pointLight ≠ none) →
      drawLights gameObjects (entries.map fun e => (e.1, e.2.id)) recorded =
        .ok (recorded ++ (entries.map Prod.snd).flatMap spriteCommands) := by
  induction entries with
  | nil => intro recorded _; simp [drawLights]
  | cons e rest ih =>
    intro recorded h
    obtain ⟨h1, h2⟩ := h e (List.mem_cons_self _ _)
    obtain ⟨light, hl⟩ := Option.ne_none_iff_exists'.mp h2
    simp only [List.map_cons, drawLights, h1, hl]
    rw [ih _ (fun e he => h e (List.mem_cons_of_mem _ he))]
    simp [List.flatMap_cons, spriteCommands, hl]

theorem spriteCommands_draws {R : Type} [One R] (order : List (LveGameObject R))
    (h : ∀ obj ∈ order, obj.pointLight ≠ none) :
    (order.flatMap spriteCommands).countP Command.isDraw = order.length := by
  induction order with
  | nil => rfl
  | cons obj rest ih =>
    obtain ⟨light, hl⟩ := Option.ne_none_iff_exists'.mp (h obj (List.mem_cons_self _ _))
    rw [List.flatMap_cons, List.countP_append, ih (fun o ho => h o (List.mem_cons_of_mem _ ho))]
    simp [spriteCommands, hl, List.countP_cons, Command.isDraw]
    omega

/-- The key `render` computes for an object is the squared distance from the
camera to the object's translation, in the arithmetic of the scalars. -/
theorem cameraDistance_eq_squaredDistance {R : Type} [Add R] [Sub R] [Mul R]
    (cameraPosition : Vec3 R) (obj : LveGameObject R) :
    cameraDistance cameraPosition obj =
      squaredDistance cameraPosition obj.transform.translation := rfl

set_option maxRecDepth 100000 in
/-- C7 as stated fails in binary32 arithmetic, camera at the origin.  The
lights at (1, 0, 0) and (1, 2⁻¹³, 0) have the distinct squared distances 1 and
1 + 2⁻²⁶, yet both get the key 1, the second assignment overwrites the first,
and `render` records one sprite draw for the two lights.  The lights of
`sampleCloseLights` get distinct keys, the farther first light the smaller
one (8392722 * 2⁻²² against 8392723 * 2⁻²²), and `render` draws the nearer
light first. -/
theorem render_rounded_distance_keys :
    (WellKeyed sampleNearLights ∧
      (lightObjects sampleNearLights).length = 2 ∧
      (lightObjects sampleNearLights).map
          (fun obj => exactSquaredDistance { x := 0, y := 0, z := 0 }
            obj.transform.translation) =
        [2 ^ 298, 2 ^ 298 + 2 ^ 272] ∧
      (lightObjects sampleNearLights).map
          (cameraDistance ({ x := 0, y := 0, z := 0 } : Vec3 Binary32)) = [1, 1] ∧
      PointLightSystem.render (binary32Frame { x := 0, y := 0, z := 0 } sampleNearLights) [] =
        .ok [Command.bindPipeline, Command.bindDescriptorSets 7,
          Command.pushPointLight
            { position := { x := 1, y := Binary32.ofDyadic 1 (-13), z := 0, w := 1 },
              color := { x := 1, y := 1, z := 1, w := 1 }, radius := 1 },
          Command.draw 6 1 0 0]) ∧
    (WellKeyed sampleCloseLights ∧
      (lightObjects sampleCloseLights).map
          (fun obj => exactSquaredDistance { x := 0, y := 0, z := 0 }
            obj.transform.translation) =
        [(2 ^ 23 + 1990) ^ 2 * 2 ^ 252 + (2 ^ 23 + 2124) ^ 2 * 2 ^ 252,
         (2 ^ 23 + 2052) ^ 2 * 2 ^ 252 + (2 ^ 23 + 2062) ^ 2 * 2 ^ 252] ∧
      (2 ^ 23 + 2052) ^ 2 * 2 ^ 252 + (2 ^ 23 + 2062) ^ 2 * 2 ^ 252 <
        ((2 ^ 23 + 1990) ^ 2 * 2 ^ 252 + (2 ^ 23 + 2124) ^ 2 * 2 ^ 252 : Int) ∧
      (lightObjects sampleCloseLights).map
          (cameraDistance ({ x := 0, y := 0, z := 0 } : Vec3 Binary32)) =
        [Binary32.ofDyadic 8392722 (-22), Binary32.ofDyadic 8392723 (-22)] ∧
      PointLightSystem.render (binary32Frame { x := 0, y := 0, z := 0 } sampleCloseLights) [] =
        .ok ([Command.bindPipeline, Command.bindDescriptorSets 7] ++
          [(binary32Light 1 (Binary32.ofDyadic (2 ^ 23 + 2052) (-23))
              (Binary32.ofDyadic (2 ^ 23 + 2062) (-23)) 0).2,
           (binary32Light 0 (Binary32.ofDyadic (2 ^ 23 + 1990) (-23))
              (Binary32.ofDyadic (2 ^ 23 + 2124) (-23)) 0).2].flatMap spriteCommands)) := by
  unfold WellKeyed
  decide

/-- C7, amended: for scalars with any linear order and any addition,
subtraction and multiplication (rounded `float` arithmetic included), when the
object set is keyed by the objects' own ids and the squared camera distances
of the lights, as computed in that arithmetic, are pairwise distinct, `render`
records the pipeline and descriptor set binds followed by one sprite (push,
6-vertex draw) per light-bearing object, in an order that is a rearrangement of
the lights with strictly decreasing computed squared distance, wherever each
light sits in the set. -/
theorem render_far_to_near {R : Type} [LinearOrder R] [Add R] [Sub R] [Mul R] [One R]
    (frameInfo : FrameInfo R) (recorded : List (Command R))
    (hkeys : WellKeyed frameInfo.gameObjects)
    (hdist : ((lightObjects frameInfo.gameObjects).map fun obj =>
      squaredDistance frameInfo.cameraPosition obj.transform.translation).Nodup) :
    ∃ order : List (LveGameObject R),
      order.Perm (lightObjects frameInfo.gameObjects) ∧
      (order.map fun obj =>
        squaredDistance frameInfo.cameraPosition obj.transform.translation).Sorted (· > ·) ∧
      PointLightSystem.render frameInfo recorded =
        .ok (recorded ++ [Command.bindPipeline,
            Command.bindDescriptorSets frameInfo.globalDescriptorSet] ++
          order.flatMap spriteCommands) ∧
      (order.flatMap spriteCommands).countP Command.isDraw =
        (lightObjects frameInfo.gameObjects).length := by
  obtain ⟨hnodup, hid⟩ := hkeys
  let d := cameraDistance frameInfo.cameraPosition
  have hd : (fun obj : LveGameObject R =>
      squaredDistance frameInfo.cameraPosition obj.transform.translation) = d :=
    funext fun obj => (cameraDistance_eq_squaredDistance frameInfo.cameraPosition obj).symm
  rw [hd] at hdist ⊢
  let ghost := (lightObjects frameInfo.gameObjects).foldl
    (fun m obj => mapAssign (d obj) obj m) ([] : List (R × LveGameObject R))
  obtain ⟨gperm, gsorted⟩ := foldl_mapAssign d (lightObjects frameInfo.gameObjects) []
    (by simp) hdist (by simp)
  rw [List.append_nil] at gperm
  have hsort : sortLights frameInfo.cameraPosition frameInfo.gameObjects [] =
      ghost.map fun e => (e.1, e.2.id) :=
    sortLights_eq_foldl frameInfo.cameraPosition frameInfo.gameObjects hid []
  have hmem : ∀ e ∈ ghost, e.2 ∈ lightObjects frameInfo.gameObjects ∧ e.1 = d e.2 := by
    intro e he
    have := gperm.mem_iff.mp he
    simp only [List.mem_map] at this
    obtain ⟨a, ha, rfl⟩ := this
    exact ⟨ha, rfl⟩
  have hfst : ghost.map (fun e => d e.2) = ghost.map Prod.fst :=
    List.map_congr_left fun e he => ((hmem e he).2).symm
  refine ⟨ghost.reverse.map Prod.snd, ?_, ?_, ?_, ?_⟩
  · refine ((List.reverse_perm ghost).map Prod.snd).trans ?_
    have hp := gperm.map Prod.snd
    rw [List.map_map] at hp
    have hid2 : (Prod.snd ∘ fun a : LveGameObject R => (d a, a)) = id := rfl
    rw [hid2, List.map_id] at hp
    exact hp
  · rw [List.map_map, List.map_reverse]
    show List.Sorted (· > ·) (ghost.map fun e => d e.2).reverse
    rw [hfst]
    exact List.pairwise_reverse.mpr gsorted
  · unfold PointLightSystem.render
    simp only [hsort]
    rw [← List.map_reverse, drawLights_eq]
    · simp
    · intro e he
      obtain ⟨hl, _⟩ := hmem e (List.mem_reverse.mp he)
      obtain ⟨hne, key, hk⟩ := mem_lightObjects _ _ hl
      have hkey : e.2.id = key := hid (key, e.2) hk
      rw [hkey]
      exact ⟨GameObjectMap.at_of_mem _ hnodup key e.2 hk, hne⟩
  · rw [spriteCommands_draws]
    · rw [List.length_map, List.length_reverse, gperm.length_eq, List.length_map]
    · intro obj hobj
      simp only [List.mem_map, List.mem_reverse] at hobj
      obtain ⟨e, he, rfl⟩ := hobj
      exact (mem_lightObjects _ _ (hmem e he).1).1

set_option maxRecDepth 100000 in
theorem render_far_to_near_witness :
    (∃ order : List (LveGameObject Binary32),
      order.Perm (lightObjects (binary32Frame sampleCamera sampleFloatLights).gameObjects) ∧
      (order.map fun obj =>
        squaredDistance (binary32Frame sampleCamera sampleFloatLights).cameraPosition
          obj.transform.translation).Sorted (· > ·) ∧
      PointLightSystem.render (binary32Frame sampleCamera sampleFloatLights) [] =
        .ok ([] ++ [Command.bindPipeline,
            Command.bindDescriptorSets
              (binary32Frame sampleCamera sampleFloatLights).globalDescriptorSet] ++
          order.flatMap spriteCommands) ∧
      (order.flatMap spriteCommands).countP Command.isDraw =
        (lightObjects (binary32Frame sampleCamera sampleFloatLights).gameObjects).length) ∧
    (lightObjects sampleFloatLights).map
        (fun obj => squaredDistance sampleCamera obj.transform.translation) =
      [Binary32.ofDyadic 4 0, Binary32.ofDyadic 9 0, Binary32.ofDyadic 1 0] ∧
    PointLightSystem.render (binary32Frame sampleCamera sampleFloatLights) [] =
      .ok ([Command.bindPipeline, Command.bindDescriptorSets 7] ++
        [(binary32Light 3 (Binary32.ofDyadic (-2) 0) (Binary32.ofDyadic 2 0)
            (Binary32.ofDyadic 3 0)).2,
         (binary32Light 5 (Binary32.ofDyadic 3 0) (Binary32.ofDyadic 2 0)
            (Binary32.ofDyadic 3 0)).2,
         (binary32Light 8 1 (Binary32.ofDyadic 2 0) (Binary32.ofDyadic 4 0)).2].flatMap
          spriteCommands) :=
  ⟨render_far_to_near (binary32Frame sampleCamera sampleFloatLights) []
      (by unfold WellKeyed; decide) (by decide),
    by decide, by decide⟩

/-- C8 on the code: two lights at the same squared distance from the camera
share one key of the distance map, the second assignment overwrites the first,
and `render` records a single sprite draw (that of the light inserted last)
for the two light-bearing objects. -/
theorem render_drops_tied_light :
    WellKeyed sampleTiedLights ∧
    (lightObjects sampleTiedLights).length = 2 ∧
    (lightObjects sampleTiedLights).map (cameraDistance ({ x := 0, y := 0, z := 0 } : Vec3 ℤ)) = [1, 1] ∧
    sortLights (sampleFrame sampleTiedLights).cameraPosition sampleTiedLights [] = [(1, 1)] ∧
    PointLightSystem.render (sampleFrame sampleTiedLights) [] =
      .ok [Command.bindPipeline, Command.bindDescriptorSets 7,
        Command.pushPointLight { position := { x := -1, y := 0, z := 0, w := 1 },
                                 color := { x := 1, y := 1, z := 1, w := 1 }, radius := 1 },
        Command.draw 6 1 0 0] := by
  unfold WellKeyed
  decide

/-! ## Light array of the uniform block -/

theorem lightObjects_cons_none {R : Type} (key : id_t) (obj : LveGameObject R)
    (rest : GameObjectMap R) (h : obj.pointLight = none) :
    lightObjects ((key, obj) :: rest) = lightObjects rest := by
  simp [lightObjects, List.filter_cons, hasLight, h]

theorem lightObjects_cons_some {R : Type} (key : id_t) (obj : LveGameObject R)
    (rest : GameObjectMap R) (light : PointLightComponent R) (h : obj.pointLight = some light) :
    lightObjects ((key, obj) :: rest) = obj :: lightObjects rest := by
  simp [lightObjects, List.filter_cons, hasLight, h]

theorem moveLight_none {R : Type} [LinearOrderedRing R] (rotateLight : Mat4 R) (key : id_t)
    (obj : LveGameObject R) (h : obj.pointLight = none) :
    moveLight rotateLight (key, obj) = (key, obj) := by
  simp [moveLight, h]

theorem moveLight_some {R : Type} [LinearOrderedRing R] (rotateLight : Mat4 R) (key : id_t)
    (obj : LveGameObject R) (light : PointLightComponent R) (h : obj.pointLight = some light) :
    moveLight rotateLight (key, obj) = (key, rotated rotateLight obj) := by
  simp [moveLight, h]

theorem lightObjects_moveLight_length {R : Type} [LinearOrderedRing R] (rotateLight : Mat4 R)
    (gameObjects : GameObjectMap R) :
    (lightObjects (gameObjects.map (moveLight rotateLight))).length =
      (lightObjects gameObjects).length := by
  induction gameObjects with
  | nil => rfl
  | cons entry rest ih =>
    obtain ⟨key, obj⟩ := entry
    cases hl : obj.pointLight with
    | none =>
      rw [List.map_cons, moveLight_none _ _ _ hl, lightObjects_cons_none _ _ _ hl,
        lightObjects_cons_none _ _ _ hl]
      exact ih
    | some light =>
      have hr : (rotated rotateLight obj).pointLight = some light := hl
      rw [List.map_cons, moveLight_some _ _ _ light hl, lightObjects_cons_some _ _ _ light hl,
        lightObjects_cons_some _ _ _ light hr, List.length_cons, List.length_cons, ih]

theorem updateLoop_cons_none {R : Type} [LinearOrderedRing R] (maxPointLights : Nat)
    (rotateLight : Mat4 R) (key : id_t) (obj : LveGameObject R) (rest visited : GameObjectMap R)
    (lightIndex : Nat) (ubo : GlobalUbo R) (hl : obj.pointLight = none) :
    updateLoop maxPointLights rotateLight ((key, obj) :: rest) visited lightIndex ubo =
      updateLoop maxPointLights rotateLight rest (visited ++ [(key, obj)]) lightIndex ubo := by
  rw [updateLoop]
  simp only [hl]

theorem updateLoop_cons_some {R : Type} [LinearOrderedRing R] (maxPointLights : Nat)
    (rotateLight : Mat4 R) (key : id_t) (obj : LveGameObject R) (rest visited : GameObjectMap R)
    (lightIndex : Nat) (ubo : GlobalUbo R) (light : PointLightComponent R)
    (hl : obj.pointLight = some light) :
    updateLoop maxPointLights rotateLight ((key, obj) :: rest) visited lightIndex ubo =
      if ¬ lightIndex < maxPointLights then
        .assertFailed "Point lights exceed maximum specified" (visited ++ (key, obj) :: rest) ubo
      else if lightIndex < ubo.pointLights.length then
        updateLoop maxPointLights rotateLight rest (visited ++ [(key, rotated rotateLight obj)])
          (lightIndex + 1)
          { ubo with pointLights :=
              ubo.pointLights.set lightIndex (slotOf (rotated rotateLight obj) light) }
      else .bufferOverrun (visited ++ (key, rotated rotateLight obj) :: rest) ubo := by
  rw [updateLoop]
  simp only [hl, rotated, slotOf]

/-- The loop of `update` when the remaining lights fit: `written` are the
light array entries below the counter, `free` the ones from the counter on. -/
theorem updateLoop_fits {R : Type} [LinearOrderedRing R] (maxPointLights : Nat)
    (rotateLight : Mat4 R) (rest : GameObjectMap R) :
    ∀ (visited : GameObjectMap R) (written free : List (PointLight R)) (ubo : GlobalUbo R),
      ubo.pointLights = written ++ free →
      (lightObjects rest).length ≤ free.length →
      written.length + (lightObjects rest).length ≤ maxPointLights →
      updateLoop maxPointLights rotateLight rest visited written.length ubo =
        .ok (visited ++ rest.map (moveLight rotateLight))
          { ubo with
            pointLights := written ++ slotEntries (rest.map (moveLight rotateLight)) ++
              free.drop (lightObjects rest).length
            numPointLights := written.length + (lightObjects rest).length } := by
  induction rest with
  | nil =>
    intro visited written free ubo harr _ _
    simp [updateLoop, slotEntries, lightObjects, harr]
  | cons entry rest ih =>
    intro visited written free ubo harr hfree hmax
    obtain ⟨key, obj⟩ := entry
    cases hl : obj.pointLight with
    | none =>
      rw [lightObjects_cons_none _ _ _ hl] at hfree hmax
      rw [updateLoop_cons_none _ _ _ _ _ _ _ _ hl,
        ih (visited ++ [(key, obj)]) written free ubo harr hfree hmax, List.map_cons,
        moveLight_none _ _ _ hl, lightObjects_cons_none _ _ _ hl]
      simp [slotEntries, lightObjects_cons_none _ _ _ hl]
    | some light =>
      rw [lightObjects_cons_some _ _ _ light hl, List.length_cons] at hfree hmax
      cases free with
      | nil => simp at hfree
      | cons slot free =>
        have hlt : written.length < maxPointLights := by omega
        have hlen : written.length < ubo.pointLights.length := by
          rw [harr, List.length_append, List.length_cons]; omega
        rw [updateLoop_cons_some _ _ _ _ _ _ _ _ light hl, if_neg (not_not.mpr hlt), if_pos hlen]
        have hr : (rotated rotateLight obj).pointLight = some light := hl
        have hset : ubo.pointLights.set written.length (slotOf (rotated rotateLight obj) light) =
            (written ++ [slotOf (rotated rotateLight obj) light]) ++ free := by
          rw [harr, List.set_append_right _ _ (Nat.le_refl _), Nat.sub_self, List.set_cons_zero,
            List.append_assoc]
          rfl
        have hstep := ih (visited ++ [(key, rotated rotateLight obj)])
          (written ++ [slotOf (rotated rotateLight obj) light]) free
          { ubo with pointLights :=
              ubo.pointLights.set written.length (slotOf (rotated rotateLight obj) light) }
          hset (by simp only [List.length_cons] at hfree; omega)
          (by rw [List.length_append, List.length_singleton]; omega)
        rw [List.length_append, List.length_singleton] at hstep
        refine hstep.trans ?_
        have hslots : slotEntries ((key, rotated rotateLight obj) ::
              rest.map (moveLight rotateLight)) =
            slotOf (rotated rotateLight obj) light ::
              slotEntries (rest.map (moveLight rotateLight)) := by
          unfold slotEntries
          rw [lightObjects_cons_some _ _ _ light hr]
          simp [entryOf, hr]
        rw [List.map_cons, moveLight_some _ _ _ light hl, hslots,
          lightObjects_cons_some _ _ _ light hl]
        simp [Nat.add_assoc, Nat.add_comm 1]

/-- The loop of `update` when the remaining lights do not fit: the assertion
fails with the light array as long as it was and the count not recorded. -/
theorem updateLoop_overflows {R : Type} [LinearOrderedRing R] (maxPointLights : Nat)
    (rotateLight : Mat4 R) (rest : GameObjectMap R) :
    ∀ (visited : GameObjectMap R) (lightIndex : Nat) (ubo : GlobalUbo R),
      maxPointLights < lightIndex + (lightObjects rest).length →
      lightIndex ≤ maxPointLights → maxPointLights ≤ ubo.pointLights.length →
      ∃ gameObjects ubo',
        updateLoop maxPointLights rotateLight rest visited lightIndex ubo =
          .assertFailed "Point lights exceed maximum specified" gameObjects ubo' ∧
        ubo'.pointLights.length = ubo.pointLights.length ∧
        ubo'.numPointLights = ubo.numPointLights := by
  induction rest with
  | nil =>
    intro visited lightIndex ubo hover hle _
    simp [lightObjects] at hover
    omega
  | cons entry rest ih =>
    intro visited lightIndex ubo hover hle hcap
    obtain ⟨key, obj⟩ := entry
    cases hl : obj.pointLight with
    | none =>
      rw [lightObjects_cons_none _ _ _ hl] at hover
      rw [updateLoop_cons_none _ _ _ _ _ _ _ _ hl]
      exact ih _ _ _ hover hle hcap
    | some light =>
      rw [lightObjects_cons_some _ _ _ light hl, List.length_cons] at hover
      rw [updateLoop_cons_some _ _ _ _ _ _ _ _ light hl]
      by_cases hlt : lightIndex < maxPointLights
      · rw [if_neg (not_not.mpr hlt), if_pos (Nat.lt_of_lt_of_le hlt hcap)]
        obtain ⟨objs, ubo', h1, h2, h3⟩ := ih (visited ++ [(key, rotated rotateLight obj)])
          (lightIndex + 1)
          { ubo with pointLights :=
              ubo.pointLights.set lightIndex (slotOf (rotated rotateLight obj) light) }
          (by omega) hlt (by simpa using hcap)
        refine ⟨objs, ubo', h1, ?_, h3⟩
        rw [h2]
        simp
      · rw [if_pos hlt]
        exact ⟨_, _, rfl, rfl, rfl⟩

theorem lightObjects_moveLight {R : Type} [LinearOrderedRing R] (rotateLight : Mat4 R)
    (gameObjects : GameObjectMap R) :
    lightObjects (gameObjects.map (moveLight rotateLight)) =
      (lightObjects gameObjects).map (rotated rotateLight) := by
  induction gameObjects with
  | nil => rfl
  | cons entry rest ih =>
    obtain ⟨key, obj⟩ := entry
    cases hl : obj.pointLight with
    | none =>
      rw [List.map_cons, moveLight_none _ _ _ hl, lightObjects_cons_none _ _ _ hl,
        lightObjects_cons_none _ _ _ hl]
      exact ih
    | some light =>
      have hr : (rotated rotateLight obj).pointLight = some light := hl
      rw [List.map_cons, moveLight_some _ _ _ light hl, lightObjects_cons_some _ _ _ light hl,
        lightObjects_cons_some _ _ _ light hr, List.map_cons, ih]

theorem filterMap_entryOf_getElem? {R : Type} [LinearOrderedRing R]
    (objs : List (LveGameObject R)) (h : ∀ obj ∈ objs, obj.pointLight ≠ none) :
    ∀ i : Nat, (objs.filterMap entryOf)[i]? = (objs[i]?).bind entryOf := by
  induction objs with
  | nil => intro i; simp
  | cons obj rest ih =>
    intro i
    obtain ⟨light, hl⟩ := Option.ne_none_iff_exists'.mp (h obj (List.mem_cons_self _ _))
    have he : entryOf obj = some (slotOf obj light) := by simp [entryOf, hl]
    rw [List.filterMap_cons_some he]
    cases i with
    | zero => simp [he]
    | succ i =>
      simp only [List.getElem?_cons_succ]
      exact ih (fun o ho => h o (List.mem_cons_of_mem _ ho)) i

theorem slotEntries_length {R : Type} [LinearOrderedRing R] (gameObjects : GameObjectMap R) :
    (slotEntries gameObjects).length = (lightObjects gameObjects).length := by
  induction gameObjects with
  | nil => rfl
  | cons entry rest ih =>
    obtain ⟨key, obj⟩ := entry
    unfold slotEntries at ih ⊢
    cases hl : obj.pointLight with
    | none => rw [lightObjects_cons_none _ _ _ hl]; exact ih
    | some light =>
      have he : entryOf obj = some (slotOf obj light) := by simp [entryOf, hl]
      rw [lightObjects_cons_some _ _ _ light hl, List.filterMap_cons_some he, List.length_cons,
        List.length_cons, ih]

/-- The whole of `update` when the lights fit into the light array. -/
theorem update_fits {R : Type} [LinearOrderedField R] (maxPointLights : Nat)
    (glmRotate : R → Vec3 R → Mat4 R) (frameInfo : FrameInfo R) (ubo : GlobalUbo R)
    (hcap : ubo.pointLights.length = maxPointLights)
    (hfit : (lightObjects frameInfo.gameObjects).length ≤ maxPointLights) :
    PointLightSystem.update maxPointLights glmRotate frameInfo ubo =
      .ok (frameInfo.gameObjects.map (moveLight (rotateLight glmRotate frameInfo)))
        { ubo with
          pointLights :=
            slotEntries (frameInfo.gameObjects.map
              (moveLight (rotateLight glmRotate frameInfo))) ++
              ubo.pointLights.drop (lightObjects frameInfo.gameObjects).length
          numPointLights := (lightObjects frameInfo.gameObjects).length } := by
  have hloop := updateLoop_fits maxPointLights (rotateLight glmRotate frameInfo)
    frameInfo.gameObjects [] [] ubo.pointLights ubo rfl (by rw [hcap]; exact hfit)
    (by simpa using hfit)
  simp only [List.length_nil, List.nil_append, Nat.zero_add] at hloop
  exact hloop

/-- C9: when the light array has `MAX_POINT_LIGHTS` entries and the object set
has at most that many light-bearing objects, `update` returns normally, having
rotated exactly the light-bearing objects; `ubo.numPointLights` is the number
of light-bearing objects, slot `i` below that count holds position = (updated
translation, 1) and color = (color, light intensity) of the `i`-th
light-bearing object in iteration order, and the slots from the count on are
as they were. -/
theorem update_fills_slots {R : Type} [LinearOrderedField R] (maxPointLights : Nat)
    (glmRotate : R → Vec3 R → Mat4 R) (frameInfo : FrameInfo R) (ubo : GlobalUbo R)
    (hcap : ubo.pointLights.length = maxPointLights)
    (hfit : (lightObjects frameInfo.gameObjects).length ≤ maxPointLights) :
    ∃ ubo' : GlobalUbo R,
      PointLightSystem.update maxPointLights glmRotate frameInfo ubo =
        .ok (frameInfo.gameObjects.map (moveLight (rotateLight glmRotate frameInfo))) ubo' ∧
      lightObjects (frameInfo.gameObjects.map (moveLight (rotateLight glmRotate frameInfo))) =
        (lightObjects frameInfo.gameObjects).map (rotated (rotateLight glmRotate frameInfo)) ∧
      ubo'.numPointLights = (lightObjects frameInfo.gameObjects).length ∧
      ubo'.pointLights =
        slotEntries (frameInfo.gameObjects.map (moveLight (rotateLight glmRotate frameInfo))) ++
          ubo.pointLights.drop (lightObjects frameInfo.gameObjects).length ∧
      (∀ i, i < (lightObjects frameInfo.gameObjects).length →
        ubo'.pointLights[i]? =
          ((lightObjects (frameInfo.gameObjects.map
            (moveLight (rotateLight glmRotate frameInfo))))[i]?).bind entryOf) ∧
      (∀ i, (lightObjects frameInfo.gameObjects).length ≤ i →
        ubo'.pointLights[i]? = ubo.pointLights[i]?) ∧
      ubo'.pointLights.length = maxPointLights := by
  have hloop := update_fits maxPointLights glmRotate frameInfo ubo hcap hfit
  have hlenS := slotEntries_length
    (frameInfo.gameObjects.map (moveLight (rotateLight glmRotate frameInfo)))
  rw [lightObjects_moveLight_length] at hlenS
  refine ⟨_, hloop, lightObjects_moveLight _ _, rfl, rfl, ?_, ?_, ?_⟩
  · intro i hi
    show (slotEntries _ ++ _)[i]? = _
    rw [List.getElem?_append_left (by rw [hlenS]; exact hi)]
    unfold slotEntries
    apply filterMap_entryOf_getElem?
    intro obj hobj
    exact (mem_lightObjects _ _ hobj).1
  · intro i hi
    show (slotEntries _ ++ _)[i]? = _
    rw [List.getElem?_append_right (by rw [hlenS]; exact hi), hlenS, List.getElem?_drop]
    congr 1
    omega
  · show (slotEntries _ ++ _).length = _
    rw [List.length_append, hlenS, List.length_drop, hcap]
    omega

theorem update_fills_slots_witness :
    ∃ ubo' : GlobalUbo ℚ,
      PointLightSystem.update 2 sampleRotate sampleUpdateFrame sampleUbo =
        .ok (sampleUpdateFrame.gameObjects.map
          (moveLight (rotateLight sampleRotate sampleUpdateFrame))) ubo' ∧
      lightObjects (sampleUpdateFrame.gameObjects.map
          (moveLight (rotateLight sampleRotate sampleUpdateFrame))) =
        (lightObjects sampleUpdateFrame.gameObjects).map
          (rotated (rotateLight sampleRotate sampleUpdateFrame)) ∧
      ubo'.numPointLights = (lightObjects sampleUpdateFrame.gameObjects).length ∧
      ubo'.pointLights =
        slotEntries (sampleUpdateFrame.gameObjects.map
            (moveLight (rotateLight sampleRotate sampleUpdateFrame))) ++
          sampleUbo.pointLights.drop (lightObjects sampleUpdateFrame.gameObjects).length ∧
      (∀ i, i < (lightObjects sampleUpdateFrame.gameObjects).length →
        ubo'.pointLights[i]? =
          ((lightObjects (sampleUpdateFrame.gameObjects.map
            (moveLight (rotateLight sampleRotate sampleUpdateFrame))))[i]?).bind entryOf) ∧
      (∀ i, (lightObjects sampleUpdateFrame.gameObjects).length ≤ i →
        ubo'.pointLights[i]? = sampleUbo.pointLights[i]?) ∧
      ubo'.pointLights.length = 2 :=
  update_fills_slots 2 sampleRotate sampleUpdateFrame sampleUbo (by rfl) (by decide)

/-- C10: with a light array of `MAX_POINT_LIGHTS` entries, `update` fails its
assertion exactly when the object set has more than `MAX_POINT_LIGHTS`
light-bearing objects; it never writes past the light array, on a failed
assertion the array still has its `MAX_POINT_LIGHTS` entries and the count has
not been recorded, and a normal return always records the full number of
lights. -/
theorem update_capacity_assert {R : Type} [LinearOrderedField R] (maxPointLights : Nat)
    (glmRotate : R → Vec3 R → Mat4 R) (frameInfo : FrameInfo R) (ubo : GlobalUbo R)
    (hcap : ubo.pointLights.length = maxPointLights) :
    ((PointLightSystem.update maxPointLights glmRotate frameInfo ubo).isAssertFailed = true ↔
      maxPointLights < (lightObjects frameInfo.gameObjects).length) ∧
    (PointLightSystem.update maxPointLights glmRotate frameInfo ubo).isBufferOverrun = false ∧
    (PointLightSystem.update maxPointLights glmRotate frameInfo ubo).ubo.pointLights.length = maxPointLights ∧
    (maxPointLights < (lightObjects frameInfo.gameObjects).length →
      (PointLightSystem.update maxPointLights glmRotate frameInfo ubo).ubo.numPointLights = ubo.numPointLights) ∧
    (∀ gameObjects ubo', PointLightSystem.update maxPointLights glmRotate frameInfo ubo = .ok gameObjects ubo' →
      ubo'.numPointLights = (lightObjects frameInfo.gameObjects).length) := by
  by_cases hfit : (lightObjects frameInfo.gameObjects).length ≤ maxPointLights
  · have h1 := update_fits maxPointLights glmRotate frameInfo ubo hcap hfit
    have hlenS := slotEntries_length
      (frameInfo.gameObjects.map (moveLight (rotateLight glmRotate frameInfo)))
    rw [lightObjects_moveLight_length] at hlenS
    rw [h1]
    refine ⟨?_, rfl, ?_, fun h => absurd h (Nat.not_lt.mpr hfit), ?_⟩
    · constructor
      · intro h; simp [UpdateOutcome.isAssertFailed] at h
      · intro h; exact absurd h (Nat.not_lt.mpr hfit)
    · show (slotEntries _ ++ _).length = _
      rw [List.length_append, hlenS, List.length_drop, hcap]
      omega
    · intro objs ubo'' h
      injection h with _ hu
      rw [← hu]
  · have hover : maxPointLights < (lightObjects frameInfo.gameObjects).length :=
      Nat.lt_of_not_le hfit
    obtain ⟨objs, ubo', h1, h2, h3⟩ := updateLoop_overflows maxPointLights
      (rotateLight glmRotate frameInfo) frameInfo.gameObjects [] 0 ubo
      (by simpa using hover) (Nat.zero_le _) (by rw [hcap])
    have hu : PointLightSystem.update maxPointLights glmRotate frameInfo ubo =
        .assertFailed "Point lights exceed maximum specified" objs ubo' := h1
    rw [hu]
    refine ⟨⟨fun _ => hover, fun _ => rfl⟩, rfl, ?_, fun _ => h3, ?_⟩
    · show ubo'.pointLights.length = _
      rw [h2, hcap]
    · intro objs' ubo'' h
      simp at h

theorem update_capacity_assert_witness :
    (PointLightSystem.update 2 sampleRotate sampleCrowdedFrame sampleUbo).isAssertFailed = true ∧
    (PointLightSystem.update 2 sampleRotate sampleCrowdedFrame sampleUbo).isBufferOverrun = false ∧
    (PointLightSystem.update 2 sampleRotate sampleCrowdedFrame sampleUbo).ubo.pointLights.length = 2 ∧
    (PointLightSystem.update 2 sampleRotate sampleCrowdedFrame sampleUbo).ubo.numPointLights =
      sampleUbo.numPointLights ∧
    (PointLightSystem.update 2 sampleRotate sampleUpdateFrame sampleUbo).isAssertFailed ≠ true :=
  ⟨(update_capacity_assert 2 sampleRotate sampleCrowdedFrame sampleUbo (by rfl)).1.mpr
      (by decide),
   (update_capacity_assert 2 sampleRotate sampleCrowdedFrame sampleUbo (by rfl)).2.1,
   (update_capacity_assert 2 sampleRotate sampleCrowdedFrame sampleUbo (by rfl)).2.2.1,
   (update_capacity_assert 2 sampleRotate sampleCrowdedFrame sampleUbo (by rfl)).2.2.2.1
      (by decide),
   fun h => absurd
      ((update_capacity_assert 2 sampleRotate sampleUpdateFrame sampleUbo (by rfl)).1.mp h)
      (by decide)⟩

/-! ## Format check on recreation -/

theorem waitForExtent_eq_find (later : List VkExtent2D) :
    ∀ (extent : VkExtent2D) (trace : List Event),
      (waitForExtent extent later trace).1 =
        (extent :: later).find? fun e => decide (e.width ≠ 0) && decide (e.height ≠ 0) := by
  induction later with
  | nil =>
    intro extent trace
    unfold waitForExtent
    by_cases hd : extent.width = 0 ∨ extent.height = 0
    · rw [if_pos hd]
      rcases hd with hd | hd <;> simp [List.find?_cons, hd]
    · rw [if_neg hd]
      have h1 : extent.width ≠ 0 := fun h => hd (Or.inl h)
      have h2 : extent.height ≠ 0 := fun h => hd (Or.inr h)
      simp [List.find?_cons, h1, h2]
  | cons next rest ih =>
    intro extent trace
    unfold waitForExtent
    by_cases hd : extent.width = 0 ∨ extent.height = 0
    · rw [if_pos hd, ih]
      have hfalse : (decide (extent.width ≠ 0) && decide (extent.height ≠ 0)) = false := by
        rcases hd with hd | hd <;> simp [hd]
      rw [List.find?_cons (a := extent), hfalse]
    · rw [if_neg hd]
      have h1 : extent.width ≠ 0 := fun h => hd (Or.inl h)
      have h2 : extent.height ≠ 0 := fun h => hd (Or.inr h)
      simp [List.find?_cons, h1, h2]

/-- The three ways `recreateSwapChain` ends once the wait loop has left with `extent`. -/
theorem recreateSwapChain_settled (env : RecreateEnv) (s : LveRenderer) (extent : VkExtent2D)
    (hext : settledExtent env = some extent) :
    ∃ trace : List Event,
      recreateSwapChain env s =
        match s.lveSwapChain with
        | none =>
          .ok () { s with
            lveSwapChain := some { extent := extent, imageFormat := env.imageFormat,
                                   depthFormat := env.depthFormat }
            trace := trace ++ [Event.vkDeviceWaitIdle, Event.createSwapChain extent false] }
        | some old =>
          if compareSwapFormats old { extent := extent, imageFormat := env.imageFormat,
                                      depthFormat := env.depthFormat } then
            .ok () { s with
              lveSwapChain := some { extent := extent, imageFormat := env.imageFormat,
                                     depthFormat := env.depthFormat }
              trace := trace ++ [Event.vkDeviceWaitIdle, Event.createSwapChain extent true] }
          else
            .runtimeError "Swap chain image(or depth) format has changed" { s with
              lveSwapChain := some { extent := extent, imageFormat := env.imageFormat,
                                     depthFormat := env.depthFormat }
              trace := trace ++ [Event.vkDeviceWaitIdle, Event.createSwapChain extent true] } := by
  have hw := waitForExtent_eq_find env.later env.extent (s.trace ++ [Event.getExtent])
  unfold settledExtent at hext
  rw [hext] at hw
  unfold recreateSwapChain
  revert hw
  rcases waitForExtent env.extent env.later (s.trace ++ [Event.getExtent]) with ⟨o, tr⟩
  intro hw
  simp only at hw
  subst hw
  refine ⟨tr, ?_⟩
  cases s.lveSwapChain with
  | none => rfl
  | some old => rfl

/-- C12: once the extent readings have settled on a non-degenerate extent,
`recreateSwapChain` throws exactly when the renderer held a swapchain whose
image or depth format differs from that of the newly built one; without an old
swapchain it returns normally whatever the new formats are; and whenever it
does not throw it returns normally with the renderer holding the swapchain
built for the settled extent. -/
theorem recreateSwapChain_format_check (env : RecreateEnv) (s : LveRenderer)
    (extent : VkExtent2D) (hext : settledExtent env = some extent) :
    ((recreateSwapChain env s).isRuntimeError = true ↔
      ∃ old, s.lveSwapChain = some old ∧
        ¬ (old.imageFormat = env.imageFormat ∧ old.depthFormat = env.depthFormat)) ∧
    (s.lveSwapChain = none → ∃ s', recreateSwapChain env s = .ok () s') ∧
    ((recreateSwapChain env s).isRuntimeError = false →
      ∃ s', recreateSwapChain env s = .ok () s' ∧
        s'.lveSwapChain = some { extent := extent, imageFormat := env.imageFormat,
                                 depthFormat := env.depthFormat } ∧
        recreations s'.trace = recreations s.trace + 1) := by
  obtain ⟨tr, h⟩ := recreateSwapChain_settled env s extent hext
  cases hsc : s.lveSwapChain with
  | none =>
    rw [hsc] at h
    simp only at h
    have hrec := recreateSwapChain_ok_frame env s _ () h
    refine ⟨?_, fun _ => ⟨_, h⟩, fun _ => ⟨_, h, rfl, hrec.2.2.2.2.1⟩⟩
    rw [h]
    simp [Outcome.isRuntimeError]
  | some old =>
    rw [hsc] at h
    simp only at h
    by_cases hcmp : compareSwapFormats old { extent := extent, imageFormat := env.imageFormat,
                                             depthFormat := env.depthFormat } = true
    · rw [if_pos hcmp] at h
      have hrec := recreateSwapChain_ok_frame env s _ () h
      have hsame : old.imageFormat = env.imageFormat ∧ old.depthFormat = env.depthFormat := by
        simp [compareSwapFormats] at hcmp
        exact ⟨hcmp.2.symm, hcmp.1.symm⟩
      refine ⟨?_, fun hn => by simp at hn, fun _ => ⟨_, h, rfl, hrec.2.2.2.2.1⟩⟩
      rw [h]
      constructor
      · intro hr; simp [Outcome.isRuntimeError] at hr
      · rintro ⟨old', ho, hne⟩
        injection ho with ho
        subst ho
        exact absurd hsame hne
    · rw [if_neg hcmp] at h
      have hdiff : ¬ (old.imageFormat = env.imageFormat ∧ old.depthFormat = env.depthFormat) := by
        rintro ⟨h1, h2⟩
        apply hcmp
        simp [compareSwapFormats, h1, h2]
      refine ⟨?_, fun hn => by simp at hn, ?_⟩
      · rw [h]
        exact ⟨fun _ => ⟨old, rfl, hdiff⟩, fun _ => rfl⟩
      · rw [h]
        intro hr
        simp [Outcome.isRuntimeError] at hr

theorem recreateSwapChain_format_check_witness :
    (recreateSwapChain sampleReformat sampleRenderer).isRuntimeError = true ∧
    (∃ s', recreateSwapChain sampleReformat LveRenderer.initial = .ok () s') ∧
    (∃ s', recreateSwapChain sampleRestore sampleRenderer = .ok () s' ∧
      s'.lveSwapChain = some { extent := { width := 640, height := 480 },
                               imageFormat := sampleRestore.imageFormat,
                               depthFormat := sampleRestore.depthFormat } ∧
      recreations s'.trace = recreations sampleRenderer.trace + 1) :=
  ⟨(recreateSwapChain_format_check sampleReformat sampleRenderer
      { width := 640, height := 480 } (by rfl)).1.mpr ⟨_, rfl, by decide⟩,
   (recreateSwapChain_format_check sampleReformat LveRenderer.initial
      { width := 640, height := 480 } (by rfl)).2.1 rfl,
   (recreateSwapChain_format_check sampleRestore sampleRenderer
      { width := 640, height := 480 } (by rfl)).2.2 (by rfl)⟩

/-! ## Render pass preconditions -/

theorem beginSwapChainRenderPass_cases (swapChainExtent : VkExtent2D)
    (commandBuffer : Option VkCommandBuffer) (s : LveRenderer) :
    (isCurrentCommandBuffer commandBuffer s ∧
      (beginSwapChainRenderPass swapChainExtent commandBuffer s).isOk = true) ∨
    (¬ isCurrentCommandBuffer commandBuffer s ∧
      (beginSwapChainRenderPass swapChainExtent commandBuffer s).isOk = false ∧
      (beginSwapChainRenderPass swapChainExtent commandBuffer s).state = s) := by
  unfold beginSwapChainRenderPass isCurrentCommandBuffer
  cases hf : s.isFrameStarted with
  | false => right; simp [Outcome.isOk, Outcome.state]
  | true =>
    simp only [not_true_eq_false, if_false, true_and]
    cases hc : getCurrentCommandBuffer s with
    | none => right; simp [Outcome.isOk, Outcome.state]
    | some current =>
      simp only
      by_cases harg : commandBuffer = some current
      · left
        rw [if_neg (not_not.mpr harg)]
        exact ⟨⟨current, harg, rfl⟩, rfl⟩
      · right
        rw [if_pos harg]
        refine ⟨?_, rfl, rfl⟩
        rintro ⟨c, h1, h2⟩
        injection h2 with h2
        subst h2
        exact harg h1

theorem endSwapChainRenderPass_cases (commandBuffer : Option VkCommandBuffer)
    (s : LveRenderer) :
    (isCurrentCommandBuffer commandBuffer s ∧
      (endSwapChainRenderPass commandBuffer s).isOk = true) ∨
    (¬ isCurrentCommandBuffer commandBuffer s ∧
      (endSwapChainRenderPass commandBuffer s).isOk = false ∧
      (endSwapChainRenderPass commandBuffer s).state = s) := by
  unfold endSwapChainRenderPass isCurrentCommandBuffer
  cases hf : s.isFrameStarted with
  | false => right; simp [Outcome.isOk, Outcome.state]
  | true =>
    simp only [not_true_eq_false, if_false, true_and]
    cases hc : getCurrentCommandBuffer s with
    | none => right; simp [Outcome.isOk, Outcome.state]
    | some current =>
      simp only
      by_cases harg : commandBuffer = some current
      · left
        rw [if_neg (not_not.mpr harg)]
        exact ⟨⟨current, harg, rfl⟩, rfl⟩
      · right
        rw [if_pos harg]
        refine ⟨?_, rfl, rfl⟩
        rintro ⟨c, h1, h2⟩
        injection h2 with h2
        subst h2
        exact harg h1

theorem renderPass_assert_of_not_current (swapChainExtent : VkExtent2D)
    (commandBuffer : Option VkCommandBuffer) (s : LveRenderer) (current : VkCommandBuffer)
    (hslot : getCurrentCommandBuffer s = some current)
    (hnot : ¬ isCurrentCommandBuffer commandBuffer s) :
    (beginSwapChainRenderPass swapChainExtent commandBuffer s).isAssertFailed = true ∧
    (endSwapChainRenderPass commandBuffer s).isAssertFailed = true := by
  unfold beginSwapChainRenderPass endSwapChainRenderPass
  cases hf : s.isFrameStarted with
  | false => simp [Outcome.isAssertFailed]
  | true =>
    have harg : commandBuffer ≠ some current := by
      intro h
      exact hnot ⟨hf, current, h, hslot⟩
    simp [hslot, harg, Outcome.isAssertFailed]

/-- C13: `beginSwapChainRenderPass` and `endSwapChainRenderPass` each return
normally exactly when a frame is open and the argument is the command buffer
of the current frame slot, which is the one the opening `beginFrame` returned;
otherwise the call ends in the state it was entered in, with no render-pass
command recorded, and does so by a failed assertion whenever the slot index is
within the command buffer list. -/
theorem renderPass_preconditions (swapChainExtent : VkExtent2D)
    (commandBuffer : Option VkCommandBuffer) (s : LveRenderer) :
    ((beginSwapChainRenderPass swapChainExtent commandBuffer s).isOk = true ↔
      isCurrentCommandBuffer commandBuffer s) ∧
    ((endSwapChainRenderPass commandBuffer s).isOk = true ↔
      isCurrentCommandBuffer commandBuffer s) ∧
    (¬ isCurrentCommandBuffer commandBuffer s →
      (beginSwapChainRenderPass swapChainExtent commandBuffer s).state = s ∧
      (endSwapChainRenderPass commandBuffer s).state = s) ∧
    (∀ current, getCurrentCommandBuffer s = some current →
      ¬ isCurrentCommandBuffer commandBuffer s →
      (beginSwapChainRenderPass swapChainExtent commandBuffer s).isAssertFailed = true ∧
      (endSwapChainRenderPass commandBuffer s).isAssertFailed = true) ∧
    (∀ (env : BeginFrameEnv) (s0 : LveRenderer) (returned : VkCommandBuffer),
      beginFrame env s0 = .ok (some returned) s →
      (isCurrentCommandBuffer commandBuffer s ↔ commandBuffer = some returned)) := by
  have hb := beginSwapChainRenderPass_cases swapChainExtent commandBuffer s
  have he := endSwapChainRenderPass_cases commandBuffer s
  refine ⟨?_, ?_, ?_, ?_, ?_⟩
  · rcases hb with ⟨h1, h2⟩ | ⟨h1, h2, _⟩
    · exact ⟨fun _ => h1, fun _ => h2⟩
    · rw [h2]
      exact ⟨fun h => absurd h Bool.false_ne_true, fun h => absurd h h1⟩
  · rcases he with ⟨h1, h2⟩ | ⟨h1, h2, _⟩
    · exact ⟨fun _ => h1, fun _ => h2⟩
    · rw [h2]
      exact ⟨fun h => absurd h Bool.false_ne_true, fun h => absurd h h1⟩
  · intro hnot
    constructor
    · rcases hb with ⟨h1, _⟩ | ⟨_, _, h3⟩
      · exact absurd h1 hnot
      · exact h3
    · rcases he with ⟨h1, _⟩ | ⟨_, _, h3⟩
      · exact absurd h1 hnot
      · exact h3
  · intro current hslot hnot
    exact renderPass_assert_of_not_current swapChainExtent commandBuffer s current hslot hnot
  · intro env s0 returned hbegin
    obtain ⟨_, hcbs, hidx, hcase⟩ := beginFrame_ok_inv _ _ _ _ hbegin
    rcases hcase with ⟨hnone, _⟩ | ⟨cb, hsome, hget, hopen⟩
    · simp at hnone
    · injection hsome with hsome
      subst hsome
      have hcur : getCurrentCommandBuffer s = some returned := by
        unfold getCurrentCommandBuffer
        rw [hcbs, hidx]
        exact hget
      unfold isCurrentCommandBuffer
      constructor
      · rintro ⟨_, c, h1, h2⟩
        rw [hcur] at h2
        rw [h1, h2]
      · intro h
        exact ⟨hopen, returned, h, hcur⟩

theorem renderPass_preconditions_witness :
    (beginSwapChainRenderPass { width := 800, height := 600 } (some 100)
      sampleOpenRenderer).isOk = true ∧
    (endSwapChainRenderPass (some 100) sampleOpenRenderer).isOk = true ∧
    (beginSwapChainRenderPass { width := 800, height := 600 } (some 101)
      sampleOpenRenderer).isAssertFailed = true ∧
    (endSwapChainRenderPass (some 101) sampleOpenRenderer).state = sampleOpenRenderer ∧
    (beginSwapChainRenderPass { width := 800, height := 600 } (some 100)
      sampleRenderer).state = sampleRenderer :=
  ⟨(renderPass_preconditions { width := 800, height := 600 } (some 100)
      sampleOpenRenderer).1.mpr
      (((renderPass_preconditions { width := 800, height := 600 } (some 100)
        sampleOpenRenderer).2.2.2.2 (acquireOk 2) sampleRenderer 100 (by rfl)).mpr rfl),
   (renderPass_preconditions { width := 800, height := 600 } (some 100)
      sampleOpenRenderer).2.1.mpr ⟨rfl, 100, rfl, rfl⟩,
   ((renderPass_preconditions { width := 800, height := 600 } (some 101)
      sampleOpenRenderer).2.2.2.1 100 (by rfl)
      (fun h => absurd (((renderPass_preconditions { width := 800, height := 600 } (some 101)
        sampleOpenRenderer).2.2.2.2 (acquireOk 2) sampleRenderer 100 (by rfl)).mp h)
        (by decide))).1,
   ((renderPass_preconditions { width := 800, height := 600 } (some 101)
      sampleOpenRenderer).2.2.1
      (fun h => absurd (((renderPass_preconditions { width := 800, height := 600 } (some 101)
        sampleOpenRenderer).2.2.2.2 (acquireOk 2) sampleRenderer 100 (by rfl)).mp h)
        (by decide))).2,
   ((renderPass_preconditions { width := 800, height := 600 } (some 100)
      sampleRenderer).2.2.1 (fun h => absurd h.1 (by decide))).1⟩

/-! ## Staleness signals on acquire -/

/-- C14 as stated fails: on a suboptimal acquire `beginFrame` reads no extent
and builds no swapchain, marks the frame open and returns the command buffer
of the current slot. -/
theorem beginFrame_suboptimal_opens_frame :
    sampleRenderer.isFrameStarted = false ∧
    acquireSuboptimal.acquireResult = VK_SUBOPTIMAL_KHR ∧
    beginFrame acquireSuboptimal sampleRenderer =
      .ok (some 100) { sampleRenderer with
        currentImageIndex := 1
        isFrameStarted := true
        trace := sampleRenderer.trace ++
          [Event.acquireNextImage, Event.vkBeginCommandBuffer 100] } ∧
    extentReads (beginFrame acquireSuboptimal sampleRenderer).state.trace =
      extentReads sampleRenderer.trace ∧
    recreations (beginFrame acquireSuboptimal sampleRenderer).state.trace =
      recreations sampleRenderer.trace := by
  decide

theorem beginFrame_stale_triggers (env : BeginFrameEnv) (s : LveRenderer)
    (hclosed : s.isFrameStarted = false)
    (hstale : env.acquireResult = VK_ERROR_OUT_OF_DATE_KHR) :
    recreationTriggered s (beginFrame env s) := by
  unfold recreationTriggered beginFrame
  simp only [hclosed, Bool.false_eq_true, if_false, hstale, if_true]
  have hr := recreateSwapChain_reads_extent env.recreate
    { s with currentImageIndex := env.imageIndex, trace := s.trace ++ [Event.acquireNextImage] }
  have hle : extentReads s.trace ≤ extentReads (s.trace ++ [Event.acquireNextImage]) := by
    simp [extentReads]
  refine Nat.lt_of_le_of_lt hle ?_
  revert hr
  rw [hclosed]
  cases recreateSwapChain env.recreate
    { lveSwapChain := s.lveSwapChain, commandBuffers := s.commandBuffers,
      currentImageIndex := env.imageIndex, currentFrameIndex := s.currentFrameIndex,
      isFrameStarted := false, trace := s.trace ++ [Event.acquireNextImage] } <;>
    exact fun hr => hr

theorem beginFrame_suboptimal_no_recreation (env : BeginFrameEnv) (s : LveRenderer)
    (hclosed : s.isFrameStarted = false)
    (hsub : env.acquireResult = VK_SUBOPTIMAL_KHR) :
    extentReads (beginFrame env s).state.trace = extentReads s.trace := by
  unfold beginFrame
  simp only [hclosed, Bool.false_eq_true, if_false, hsub, VK_SUBOPTIMAL_ne_OUT_OF_DATE]
  have hne : ¬ (VK_SUBOPTIMAL_KHR ≠ VK_SUCCESS ∧ VK_SUBOPTIMAL_KHR ≠ VK_SUBOPTIMAL_KHR) := by
    simp
  rw [if_neg hne]
  split
  · simp [Outcome.state, extentReads]
  · split <;> simp [Outcome.state, extentReads]

/-- C14, amended: on a closed frame an out-of-date acquire makes `beginFrame`
enter swapchain recreation, and when it returns it returns no command buffer
with the frame not open; a suboptimal acquire is handled like a successful
one: no recreation is entered, the frame is marked open and the command
buffer of the current slot is returned. -/
theorem beginFrame_acquire_staleness (env : BeginFrameEnv) (s : LveRenderer)
    (hclosed : s.isFrameStarted = false) :
    (env.acquireResult = VK_ERROR_OUT_OF_DATE_KHR →
      recreationTriggered s (beginFrame env s) ∧
      ∀ r s', beginFrame env s = .ok r s' → r = none ∧ s'.isFrameStarted = false) ∧
    (env.acquireResult = VK_SUBOPTIMAL_KHR →
      ¬ recreationTriggered s (beginFrame env s) ∧
      ∀ cb, getCurrentCommandBuffer s = some cb → env.beginResult = VK_SUCCESS →
        ∃ s', beginFrame env s = .ok (some cb) s' ∧ s'.isFrameStarted = true ∧
          s'.currentFrameIndex = s.currentFrameIndex ∧
          recreations s'.trace = recreations s.trace) := by
  constructor
  · intro hstale
    refine ⟨beginFrame_stale_triggers env s hclosed hstale, ?_⟩
    intro r s' h
    unfold beginFrame at h
    simp only [hclosed, Bool.false_eq_true, if_false, hstale, if_true] at h
    obtain ⟨u, s1, h1, h2⟩ := Outcome.bind_eq_ok _ _ _ _ h
    obtain ⟨i1, _⟩ := recreateSwapChain_ok_frame _ _ _ _ h1
    injection h2 with hr hs
    subst hr hs
    exact ⟨rfl, i1⟩
  · intro hsub
    constructor
    · unfold recreationTriggered
      rw [beginFrame_suboptimal_no_recreation env s hclosed hsub]
      exact Nat.lt_irrefl _
    · intro cb hcb hbeg
      have hne : ¬ (VK_SUBOPTIMAL_KHR ≠ VK_SUCCESS ∧ VK_SUBOPTIMAL_KHR ≠ VK_SUBOPTIMAL_KHR) := by
        simp
      have hcb1 : s.commandBuffers[s.currentFrameIndex]? = some cb := hcb
      refine ⟨{ s with
          currentImageIndex := env.imageIndex
          isFrameStarted := true
          trace := s.trace ++ [Event.acquireNextImage] ++ [Event.vkBeginCommandBuffer cb] },
        ?_, rfl, rfl, ?_⟩
      · unfold beginFrame
        simp [hclosed, hsub, hbeg, getCurrentCommandBuffer, hcb1, VK_SUBOPTIMAL_ne_OUT_OF_DATE]
      · simp [recreations_append, recreations, Event.isCreateSwapChain]

theorem beginFrame_acquire_staleness_witness :
    (recreationTriggered sampleRenderer (beginFrame acquireStale sampleRenderer) ∧
      ∀ r s', beginFrame acquireStale sampleRenderer = .ok r s' →
        r = none ∧ s'.isFrameStarted = false) ∧
    (¬ recreationTriggered sampleRenderer (beginFrame acquireSuboptimal sampleRenderer) ∧
      ∃ s', beginFrame acquireSuboptimal sampleRenderer = .ok (some 100) s' ∧
        s'.isFrameStarted = true ∧
        s'.currentFrameIndex = sampleRenderer.currentFrameIndex ∧
        recreations s'.trace = recreations sampleRenderer.trace) :=
  ⟨(beginFrame_acquire_staleness acquireStale sampleRenderer (by rfl)).1 (by rfl),
   ((beginFrame_acquire_staleness acquireSuboptimal sampleRenderer (by rfl)).2 (by rfl)).1,
   ((beginFrame_acquire_staleness acquireSuboptimal sampleRenderer (by rfl)).2 (by rfl)).2
      100 (by rfl) (by rfl)⟩

/-! ## What `update` does to the object set -/

theorem Mat4.identity_mulVec {R : Type} [LinearOrderedRing R] (p : Vec3 R) :
    vec3 ((Mat4.identity : Mat4 R).mulVec (vec4 p 1)) = p := by
  obtain ⟨x, y, z⟩ := p
  simp [Mat4.identity, Mat4.mulVec, Vec4.smul, Vec4.add, vec3, vec4]

theorem moveLight_identity {R : Type} [LinearOrderedRing R] (entry : id_t × LveGameObject R) :
    moveLight Mat4.identity entry = entry := by
  obtain ⟨key, obj⟩ := entry
  cases hl : obj.pointLight with
  | none => exact moveLight_none _ _ _ hl
  | some light =>
    rw [moveLight_some _ _ _ light hl]
    obtain ⟨id, color, ⟨translation, scale, rotation⟩, model, pointLight⟩ := obj
    simp only [rotated, Mat4.identity_mulVec]

/-- What `moveLight` keeps of an entry, and where it puts a light. -/
theorem moveLight_keeps {R : Type} [LinearOrderedRing R] (rotateLight : Mat4 R)
    (entry : id_t × LveGameObject R) :
    (moveLight rotateLight entry).1 = entry.1 ∧
    (moveLight rotateLight entry).2.id = entry.2.id ∧
    (moveLight rotateLight entry).2.color = entry.2.color ∧
    (moveLight rotateLight entry).2.model = entry.2.model ∧
    (moveLight rotateLight entry).2.pointLight = entry.2.pointLight ∧
    (moveLight rotateLight entry).2.transform.scale = entry.2.transform.scale ∧
    (moveLight rotateLight entry).2.transform.rotation = entry.2.transform.rotation ∧
    (entry.2.pointLight = none → moveLight rotateLight entry = entry) ∧
    (entry.2.pointLight ≠ none →
      (moveLight rotateLight entry).2.transform.translation =
        vec3 (rotateLight.mulVec (vec4 entry.2.transform.translation 1))) := by
  obtain ⟨key, obj⟩ := entry
  cases hl : obj.pointLight with
  | none =>
    rw [moveLight_none _ _ _ hl]
    simp [hl]
  | some light =>
    rw [moveLight_some _ _ _ light hl]
    simp [rotated, hl]

/-- The matrix glm builds for the axis (0, -1, 0), applied to `(p, 1)`, is the
rotation of `p` about that axis. -/
theorem rotationFrom_mulVec {R : Type} [LinearOrderedField R] (cos sin inversesqrt : R → R)
    (hunit : inversesqrt 1 = 1) (angle : R) (p : Vec3 R) :
    vec3 ((rotationFrom cos sin inversesqrt angle { x := 0, y := -1, z := 0 }).mulVec
        (vec4 p 1)) =
      rotateAbout cos sin p angle { x := 0, y := -1, z := 0 } := by
  obtain ⟨x, y, z⟩ := p
  have hk : inversesqrt (dot ({ x := 0, y := -1, z := 0 } : Vec3 R)
      { x := 0, y := -1, z := 0 }) = 1 := by
    have hdot : dot ({ x := 0, y := -1, z := 0 } : Vec3 R) { x := 0, y := -1, z := 0 } = 1 := by
      simp [dot]
    rw [hdot, hunit]
  simp only [rotationFrom, hk]
  simp only [rotateAbout, cross, dot, Mat4.mulVec, Mat4.identity, Vec4.smul, Vec4.add, vec3,
    vec4, Vec3.mk.injEq]
  refine ⟨?_, ?_, ?_⟩ <;> ring

/-- About the axis (0, -1, 0) a point keeps its height and turns in the xz plane. -/
theorem rotateAbout_minus_y {R : Type} [LinearOrderedField R] (cos sin : R → R) (angle : R)
    (p : Vec3 R) :
    rotateAbout cos sin p angle { x := 0, y := -1, z := 0 } =
      { x := p.x * cos angle - p.z * sin angle, y := p.y,
        z := p.x * sin angle + p.z * cos angle } := by
  simp only [rotateAbout, cross, dot, Vec3.mk.injEq]
  refine ⟨?_, ?_, ?_⟩ <;> ring

/-- With `cos 0 = 1` and `sin 0 = 0` the rotation by angle zero fixes every point. -/
theorem rotateAbout_zero {R : Type} [LinearOrderedField R] (cos sin : R → R)
    (hcos : cos 0 = 1) (hsin : sin 0 = 0) (p : Vec3 R) :
    rotateAbout cos sin p 0 { x := 0, y := -1, z := 0 } = p := by
  rw [rotateAbout_minus_y, hcos, hsin]
  obtain ⟨x, y, z⟩ := p
  simp

/-- C11: with `glm::rotate` computed by glm's formula from the cosine, sine and
inverse square root functions (`inversesqrt 1 = 1`), for an object set within
the light capacity `update` returns, and every light-bearing object then has
the translation `rotate(p, 0.5 * t, (0, -1, 0))` of its old translation `p`,
the same angle and axis for all lights of the call; when `t = 0`, `cos 0 = 1`
and `sin 0 = 0`, the object set is returned as it was. -/
theorem update_rotates_lights {R : Type} [LinearOrderedField R] (maxPointLights : Nat)
    (cos sin inversesqrt : R → R) (frameInfo : FrameInfo R) (ubo : GlobalUbo R)
    (hunit : inversesqrt 1 = 1)
    (hcap : ubo.pointLights.length = maxPointLights)
    (hfit : (lightObjects frameInfo.gameObjects).length ≤ maxPointLights) :
    (∃ gameObjects ubo',
      PointLightSystem.update maxPointLights (rotationFrom cos sin inversesqrt) frameInfo ubo =
        .ok gameObjects ubo' ∧
      gameObjects.length = frameInfo.gameObjects.length ∧
      ∀ (i : Nat) (entry entry' : id_t × LveGameObject R),
        frameInfo.gameObjects[i]? = some entry →
        gameObjects[i]? = some entry' → entry.2.pointLight ≠ none →
        entry'.2.transform.translation =
          rotateAbout cos sin entry.2.transform.translation (0.5 * frameInfo.frameTime)
            { x := 0, y := -1, z := 0 }) ∧
    (frameInfo.frameTime = 0 → cos 0 = 1 → sin 0 = 0 →
      ∃ ubo', PointLightSystem.update maxPointLights (rotationFrom cos sin inversesqrt)
        frameInfo ubo = .ok frameInfo.gameObjects ubo') := by
  have h := update_fits maxPointLights (rotationFrom cos sin inversesqrt) frameInfo ubo hcap hfit
  have hmove : ∀ entry : id_t × LveGameObject R, entry.2.pointLight ≠ none →
      (moveLight (rotateLight (rotationFrom cos sin inversesqrt) frameInfo)
        entry).2.transform.translation =
        rotateAbout cos sin entry.2.transform.translation (0.5 * frameInfo.frameTime)
          { x := 0, y := -1, z := 0 } := by
    intro entry hl
    rw [(moveLight_keeps _ entry).2.2.2.2.2.2.2.2 hl]
    exact rotationFrom_mulVec cos sin inversesqrt hunit _ _
  constructor
  · refine ⟨_, _, h, by simp, ?_⟩
    intro i entry entry' he he' hl
    rw [List.getElem?_map, he] at he'
    injection he' with he'
    rw [← he']
    exact hmove entry hl
  · intro ht hcos hsin
    have hmap : frameInfo.gameObjects.map
        (moveLight (rotateLight (rotationFrom cos sin inversesqrt) frameInfo)) =
        frameInfo.gameObjects := by
      conv_rhs => rw [← List.map_id frameInfo.gameObjects]
      refine List.map_congr_left fun entry _ => ?_
      obtain ⟨key, obj⟩ := entry
      cases hl : obj.pointLight with
      | none => exact moveLight_none _ _ _ hl
      | some light =>
        have hne : (key, obj).2.pointLight ≠ none := by simp [hl]
        have ht2 := hmove (key, obj) hne
        rw [ht, mul_zero, rotateAbout_zero cos sin hcos hsin] at ht2
        rw [moveLight_some _ _ _ light hl] at ht2 ⊢
        obtain ⟨id, color, ⟨translation, scale, rotation⟩, model, pointLight⟩ := obj
        simp only [rotated] at ht2 ⊢
        rw [ht2]
        rfl
    rw [hmap] at h
    exact ⟨_, h⟩

theorem update_rotates_lights_witness :
    (∃ gameObjects ubo',
      PointLightSystem.update 2 (rotationFrom sampleCos sampleSin sampleInverseSqrt)
        sampleUpdateFrame sampleUbo = .ok gameObjects ubo' ∧
      gameObjects.length = sampleUpdateFrame.gameObjects.length ∧
      ∀ (i : Nat) (entry entry' : id_t × LveGameObject ℚ),
        sampleUpdateFrame.gameObjects[i]? = some entry →
        gameObjects[i]? = some entry' → entry.2.pointLight ≠ none →
        entry'.2.transform.translation =
          rotateAbout sampleCos sampleSin entry.2.transform.translation
            (0.5 * sampleUpdateFrame.frameTime) { x := 0, y := -1, z := 0 }) ∧
    rotateAbout sampleCos sampleSin { x := 1, y := 0, z := 0 }
        (0.5 * sampleUpdateFrame.frameTime) { x := 0, y := -1, z := 0 } =
      { x := 14399 / 14401, y := 0, z := 240 / 14401 } ∧
    rotateAbout sampleCos sampleSin { x := 0, y := 0, z := 1 }
        (0.5 * sampleUpdateFrame.frameTime) { x := 0, y := -1, z := 0 } =
      { x := -240 / 14401, y := 0, z := 14399 / 14401 } ∧
    (∃ ubo', PointLightSystem.update 2 (rotationFrom sampleCos sampleSin sampleInverseSqrt)
        sampleUpdateFrame sampleUbo =
      .ok ([sampleObject 0 (14399 / 14401) 0 (240 / 14401) none
              (some { lightIntensity := 1 / 5 }),
            sampleObject 1 0 0 0 (some 11) none,
            sampleObject 2 (-240 / 14401) 0 (14399 / 14401) none
              (some { lightIntensity := 1 / 5 })] : GameObjectMap ℚ) ubo') ∧
    ∃ ubo', PointLightSystem.update 2 (rotationFrom sampleCos sampleSin sampleInverseSqrt)
        sampleStillFrame sampleUbo =
      .ok [sampleObject 0 1 0 0 none (some { lightIntensity := 1 / 5 })] ubo' :=
  ⟨(update_rotates_lights 2 sampleCos sampleSin sampleInverseSqrt sampleUpdateFrame sampleUbo
      (by norm_num [sampleInverseSqrt]) (by rfl) (by decide)).1,
   by norm_num [rotateAbout, cross, dot, sampleCos, sampleSin, sampleUpdateFrame],
   by norm_num [rotateAbout, cross, dot, sampleCos, sampleSin, sampleUpdateFrame],
   by
    have hlist : sampleUpdateFrame.gameObjects.map
        (moveLight (rotateLight (rotationFrom sampleCos sampleSin sampleInverseSqrt)
          sampleUpdateFrame)) =
        ([sampleObject 0 (14399 / 14401) 0 (240 / 14401) none
            (some { lightIntensity := 1 / 5 }),
          sampleObject 1 0 0 0 (some 11) none,
          sampleObject 2 (-240 / 14401) 0 (14399 / 14401) none
            (some { lightIntensity := 1 / 5 })] : GameObjectMap ℚ) := by
      norm_num [sampleUpdateFrame, moveLight, sampleObject, rotated, rotateLight, rotationFrom,
        sampleCos, sampleSin, sampleInverseSqrt, Mat4.mulVec, Mat4.identity, Vec4.smul,
        Vec4.add, vec3, vec4, dot]
    rw [update_fits 2 _ sampleUpdateFrame sampleUbo (by rfl) (by decide), hlist]
    exact ⟨_, rfl⟩,
   (update_rotates_lights 2 sampleCos sampleSin sampleInverseSqrt sampleStillFrame sampleUbo
      (by norm_num [sampleInverseSqrt]) (by rfl) (by decide)).2 (by rfl)
      (by norm_num [sampleCos]) (by norm_num [sampleSin])⟩

/-- C15: for an object set within the light capacity `update` returns an
object set with the same keys and ids in the same order, in which every
object without a point light is as it was and every object keeps its scale,
rotation, color, mesh reference and point light (intensity included): only
the translation of a light-bearing object may differ. -/
theorem update_frame_effect {R : Type} [LinearOrderedField R] (maxPointLights : Nat)
    (glmRotate : R → Vec3 R → Mat4 R) (frameInfo : FrameInfo R) (ubo : GlobalUbo R)
    (hcap : ubo.pointLights.length = maxPointLights)
    (hfit : (lightObjects frameInfo.gameObjects).length ≤ maxPointLights) :
    ∃ gameObjects ubo',
      PointLightSystem.update maxPointLights glmRotate frameInfo ubo = .ok gameObjects ubo' ∧
      gameObjects.map Prod.fst = frameInfo.gameObjects.map Prod.fst ∧
      gameObjects.map (fun entry => entry.2.id) =
        frameInfo.gameObjects.map (fun entry => entry.2.id) ∧
      ∀ (i : Nat) (entry entry' : id_t × LveGameObject R), frameInfo.gameObjects[i]? = some entry →
        gameObjects[i]? = some entry' →
        (entry.2.pointLight = none → entry' = entry) ∧
        entry'.2.transform.scale = entry.2.transform.scale ∧
        entry'.2.transform.rotation = entry.2.transform.rotation ∧
        entry'.2.color = entry.2.color ∧
        entry'.2.model = entry.2.model ∧
        entry'.2.pointLight = entry.2.pointLight := by
  have h := update_fits maxPointLights glmRotate frameInfo ubo hcap hfit
  refine ⟨_, _, h, ?_, ?_, ?_⟩
  · rw [List.map_map]
    exact List.map_congr_left fun e _ => (moveLight_keeps _ e).1
  · rw [List.map_map]
    exact List.map_congr_left fun e _ => (moveLight_keeps _ e).2.1
  · intro i entry entry' he he'
    rw [List.getElem?_map, he] at he'
    injection he' with he'
    rw [← he']
    obtain ⟨_, _, k3, k4, k5, k6, k7, k8, _⟩ := moveLight_keeps (rotateLight glmRotate frameInfo) entry
    exact ⟨k8, k6, k7, k3, k4, k5⟩

theorem update_frame_effect_witness :
    ∃ gameObjects ubo',
      PointLightSystem.update 2 sampleRotate sampleUpdateFrame sampleUbo =
        .ok gameObjects ubo' ∧
      gameObjects.map Prod.fst = sampleUpdateFrame.gameObjects.map Prod.fst ∧
      gameObjects.map (fun entry => entry.2.id) =
        sampleUpdateFrame.gameObjects.map (fun entry => entry.2.id) ∧
      ∀ (i : Nat) (entry entry' : id_t × LveGameObject ℚ),
        sampleUpdateFrame.gameObjects[i]? = some entry →
        gameObjects[i]? = some entry' →
        (entry.2.pointLight = none → entry' = entry) ∧
        entry'.2.transform.scale = entry.2.transform.scale ∧
        entry'.2.transform.rotation = entry.2.transform.rotation ∧
        entry'.2.color = entry.2.color ∧
        entry'.2.model = entry.2.model ∧
        entry'.2.pointLight = entry.2.pointLight :=
  update_frame_effect 2 sampleRotate sampleUpdateFrame sampleUbo (by rfl) (by decide)

end lve
